import Mathlib

/-!
Verification development for the PBRTParser repository (a PBRT v3 scene
parser).  The definitions below are a shallow embedding of the C++ source:

* the numeric recognizer of the lexer (`read_number`,
  src/src/PBRTParser.cpp lines 453-530 and src/src/PBRTLexer.cpp lines
  104-192);
* the world-directive interpreter of class PBRTParser
  (src/src/PBRTParser.cpp): graphics-state and transform stacks, the
  shape / object / instance / light / material / texture handlers, the
  Film handler, and the identifier generator `join_string_int`.

Modelling conventions:

* C++ `float` scalars are embedded as rationals (the claims under test are
  exact algebraic statements, none depends on rounding);
* heap pointers to `ygl::material` are embedded as indices into an
  explicit material heap, so that pointer aliasing and in-place mutation
  (e.g. the area-light emission write through the current material) are
  represented faithfully;
* image pixel buffers, file I/O and the yocto-gl library calls
  (`load_image*`, `make_uvcube`, `mat_to_frame`, trigonometric matrix
  builders) are outside the embedded fragment: textures carry only their
  name/path metadata, shape geometry carries positions / indices /
  radii as parsed, instance frames are kept as 4x4 matrices, and the
  transformation directives are embedded as "post-multiply the current
  matrix by a given matrix" / "replace the current matrix";
* exceptions are embedded as an `Except` error monad; an out-of-bounds
  access (`std::vector::back`/`at` on an empty vector, a null-pointer
  dereference) is the distinguished error `PErr.crash`, which is not a
  syntax or lexical error.
-/

namespace PBRT

/-- Error taxonomy of the parser: `SyntaxErrorException`,
`LexicalErrorException`, and `crash` for undefined behaviour
(out-of-bounds vector access / null dereference), which is not an
exception the C++ code throws. -/
inductive PErr where
  | syntaxErr (msg : String)
  | lexErr (msg : String)
  | crash
deriving DecidableEq, Repr

/-! ## Lexer: the numeric recognizer (PBRTLexer::read_number) -/

/-- Result of `PBRTLexer::read_number`: `notNum` models `return false`
(first character is not a number start), `tok lit rest` models a produced
NUMBER lexeme with literal `lit` and the unconsumed remainder `rest`, and
`lexErr` models the thrown `LexicalErrorException`. -/
inductive NumOut where
  | notNum
  | tok (lit : String) (rest : List Char)
  | lexError
deriving DecidableEq, Repr

/-- `this->peek()` with the end-of-input trick of `PBRTLexer::advance`:
when the input is exhausted the lexer replaces its text by two blanks, so
peeking past the end yields a space. -/
def peekC : List Char → Char
  | [] => ' '
  | c :: _ => c

/-- One iteration of the transition if-chain in the `while(true)` loop of
`read_number` (src/src/PBRTParser.cpp lines 472-515), in source order:
`some (state, pointSeen)` when a transition fires, `none` when none does
(the loop then exits or raises, depending on finality of the state). -/
def codeStep (state : Nat) (ps : Bool) (c : Char) : Option (Nat × Bool) :=
  if state == 0 && (c == '-' || c == '+' || c == '.') then
    if c == '.' then some (1, true) else some (7, ps)
  else if state == 0 && c.isDigit then some (2, ps)
  else if state == 1 && c.isDigit then
    if ps then some (3, ps) else some (2, ps)
  else if state == 2 && c == '.' && !ps then some (3, true)
  else if state == 2 && c.isDigit then some (2, ps)
  else if state == 2 && (c == 'e' || c == 'E') then some (4, ps)
  else if state == 3 && c.isDigit then some (3, ps)
  else if state == 3 && (c == 'e' || c == 'E') then some (4, ps)
  else if state == 4 && (c == '-' || c == '+') then some (5, ps)
  else if state == 4 && c.isDigit then some (6, ps)
  else if state == 5 && c.isDigit then some (6, ps)
  else if state == 6 && c.isDigit then some (6, ps)
  else if state == 7 && c.isDigit then some (2, ps)
  else if state == 7 && c == '.' then some (1, true)
  else none

/-- The `else if (state == 2 || state == 3 || state == 6)` legal exit of
the loop: at a final state the token ends, otherwise a lexical error is
raised. -/
def codeExit (state : Nat) (acc : List Char) (rest : List Char) : NumOut :=
  if state == 2 || state == 3 || state == 6 then
    NumOut.tok (String.mk acc.reverse) rest
  else
    NumOut.lexError

/-- The `while(true)` loop of `read_number`: `acc` holds the consumed
characters in reverse.  On empty input the peeked character is the
blank introduced by the end-of-input trick, which never has a
transition. -/
def rnLoop : List Char → Nat → Bool → List Char → NumOut
  | [], state, ps, acc =>
    match codeStep state ps ' ' with
    | some _ => NumOut.lexError
    | none => codeExit state acc []
  | c :: rest, state, ps, acc =>
    match codeStep state ps c with
    | some (s2, ps2) => rnLoop rest s2 ps2 (c :: acc)
    | none => codeExit state acc (c :: rest)

/-- `PBRTLexer::read_number`: refuse unless the first character is
`+`, `-`, `.` or a digit, then run the automaton loop from state 0 with
`point_seen = false`. -/
def read_number (input : List Char) : NumOut :=
  let c := peekC input
  if !(c == '+' || c == '-' || c == '.' || c.isDigit) then
    NumOut.notNum
  else
    rnLoop input 0 false []

/-! ## The automaton of spec section 4.1, written from the spec text -/

/-- Transition function of the finite automaton in spec section 4.1 over
states 0-7 paired with the "point seen" flag, transcribed bullet by
bullet from the spec (state 0: sign to 7, dot to 1 marking the point,
digit to 2; state 1: mandatory digit, to 3 if point seen else 2; state 2:
digit stays, fresh dot to 3, exponent to 4; state 3: digit stays,
exponent to 4; state 4: sign to 5, digit to 6; state 5: digit to 6;
state 6: digit stays; state 7: digit to 2, dot to 1 marking the point). -/
def specDelta : Nat × Bool → Char → Option (Nat × Bool)
  | (0, ps), c =>
    if c = '+' ∨ c = '-' then some (7, ps)
    else if c = '.' then some (1, true)
    else if c.isDigit then some (2, ps)
    else none
  | (1, ps), c =>
    if c.isDigit then (if ps then some (3, ps) else some (2, ps)) else none
  | (2, ps), c =>
    if c.isDigit then some (2, ps)
    else if c = '.' ∧ ¬ps then some (3, true)
    else if c = 'e' ∨ c = 'E' then some (4, ps)
    else none
  | (3, ps), c =>
    if c.isDigit then some (3, ps)
    else if c = 'e' ∨ c = 'E' then some (4, ps)
    else none
  | (4, ps), c =>
    if c = '+' ∨ c = '-' then some (5, ps)
    else if c.isDigit then some (6, ps)
    else none
  | (5, ps), c => if c.isDigit then some (6, ps) else none
  | (6, ps), c => if c.isDigit then some (6, ps) else none
  | (7, ps), c =>
    if c.isDigit then some (2, ps)
    else if c = '.' then some (1, true)
    else none
  | (_ + 8, _), _ => none

/-- Final states of the spec automaton: 2, 3 and 6. -/
def specFinal (state : Nat) : Bool := state == 2 || state == 3 || state == 6

/-- Greedy run of the spec automaton: consume while a transition exists;
at the first non-consumable character (or at the padded end of input)
emit the consumed prefix as a token if the state is final, else a
lexical error. -/
def specRun : List Char → Nat × Bool → List Char → NumOut
  | [], st, acc =>
    match specDelta st ' ' with
    | some _ => NumOut.lexError
    | none => if specFinal st.1 then NumOut.tok (String.mk acc.reverse) [] else NumOut.lexError
  | c :: rest, st, acc =>
    match specDelta st c with
    | some st2 => specRun rest st2 (c :: acc)
    | none =>
      if specFinal st.1 then NumOut.tok (String.mk acc.reverse) (c :: rest)
      else NumOut.lexError

/-- The numeric recognizer as described by spec section 4.1: a number
token is produced exactly when a prefix of the input is accepted by the
automaton (ending in a final state at a non-consumable character); any
other stuck transition is a lexical error; an input whose first
character is not a possible number start is not a number. -/
def specReadNumber (input : List Char) : NumOut :=
  let c := peekC input
  if !(c == '+' || c == '-' || c == '.' || c.isDigit) then
    NumOut.notNum
  else
    specRun input (0, false) []

/-! ## Identifier generation (join_string_int) -/

/-- Little-endian base-10 digit extraction with explicit fuel (the fuel
argument only guarantees structural termination; `fuel = n` always
suffices). -/
def natDigitsRev (fuel n : Nat) : List Nat :=
  match fuel with
  | 0 => []
  | f + 1 => if n = 0 then [] else (n % 10) :: natDigitsRev f (n / 10)

/-- Decimal digit to character, as printed by sprintf %d. -/
def digitChar : Nat → Char
  | 0 => '0'
  | 1 => '1'
  | 2 => '2'
  | 3 => '3'
  | 4 => '4'
  | 5 => '5'
  | 6 => '6'
  | 7 => '7'
  | 8 => '8'
  | 9 => '9'
  | _ => '*'

/-- Inverse of `natDigitsRev`: rebuild the number from its little-endian
digits. -/
def unDigits : List Nat → Nat
  | [] => 0
  | d :: ds => d + 10 * unDigits ds

/-- Decimal rendering of a natural number, the effect of sprintf %d. -/
def natRepr (n : Nat) : String :=
  if n = 0 then "0" else String.mk (((natDigitsRev n n).map digitChar).reverse)

/-- `join_string_int` (src/src/PBRTParser.cpp lines 657-661): render
"prefix_number" with sprintf "%s_%d". -/
def join_string_int (pref : String) (n : Nat) : String :=
  pref ++ "_" ++ natRepr n

/-! ## Small string utilities used by the handlers -/

/-- `ygl::endswith`: suffix test on the character data. -/
def endsWithS (s suf : String) : Bool :=
  s.data.drop (s.data.length - suf.data.length) == suf.data

/-- `get_path_and_filename` (src/src/PBRTParser.cpp lines 63-85): replace
every backslash by a slash, then split at the last slash into
(path, filename); with no slash the path is ".". -/
def get_path_and_filename (file : String) : String × String :=
  let l := file.data.map (fun c => if c = '\\' then '/' else c)
  if l.contains '/' then
    let fname := (l.reverse.takeWhile (fun c => c ≠ '/')).reverse
    (String.mk (l.take (l.length - fname.length - 1)), String.mk fname)
  else
    (".", String.mk l)

/-- `check_synonym` (src/src/PBRTParser.cpp lines 1077-1088). -/
def check_synonym (s : String) : String :=
  if s = "point" then "point3"
  else if s = "normal" then "normal3"
  else if s = "vector" then "vector3"
  else if s = "rgb" ∨ s = "color" then "rgb"
  else s

/-- Association-list lookup, modelling `std::unordered_map::find`. -/
def lookupA {α : Type} : List (String × α) → String → Option α
  | [], _ => none
  | (k2, v) :: t, k => if k2 = k then some v else lookupA t k

/-- Insert-or-overwrite, modelling the find / `it->second = ...` /
`insert` pattern used for the object table. -/
def setA {α : Type} : List (String × α) → String → α → List (String × α)
  | [], k, v => [(k, v)]
  | (k2, w) :: t, k, v => if k2 = k then (k, v) :: t else (k2, w) :: setA t k v

/-- `std::vector::at(0)`: the parsed value lists are non-empty by
construction of the parameter engine; `at` on an empty vector throws
`std::out_of_range`, which is not one of the parser exceptions. -/
def listAt0 {α : Type} : List α → Except PErr α
  | [] => Except.error PErr.crash
  | a :: _ => Except.ok a

/-! ## Scalars, vectors, matrices -/

/-- `ygl::vec3f` with exact rational components. -/
structure Vec3 where
  x : ℚ
  y : ℚ
  z : ℚ
deriving DecidableEq, Repr

/-- Componentwise sum. -/
def Vec3.add (a b : Vec3) : Vec3 := ⟨a.x + b.x, a.y + b.y, a.z + b.z⟩

/-- Scalar multiple. -/
def Vec3.smul (q : ℚ) (v : Vec3) : Vec3 := ⟨q * v.x, q * v.y, q * v.z⟩

/-- Componentwise product, the `ygl::vec3f` operator `*`. -/
def Vec3.cmul (a b : Vec3) : Vec3 := ⟨a.x * b.x, a.y * b.y, a.z * b.z⟩

/-- A row of a 4x4 matrix. -/
structure Vec4 where
  x : ℚ
  y : ℚ
  z : ℚ
  w : ℚ
deriving DecidableEq, Repr

/-- `ygl::mat4f`, a 4x4 rational matrix given by its rows. -/
structure Mat4 where
  rx : Vec4
  ry : Vec4
  rz : Vec4
  rw : Vec4
deriving DecidableEq, Repr

/-- Dot product of two 4-vectors. -/
def Vec4.dot (a b : Vec4) : ℚ := a.x * b.x + a.y * b.y + a.z * b.z + a.w * b.w

/-- Columns of a 4x4 matrix. -/
def Mat4.c1 (m : Mat4) : Vec4 := ⟨m.rx.x, m.ry.x, m.rz.x, m.rw.x⟩

/-- Second column. -/
def Mat4.c2 (m : Mat4) : Vec4 := ⟨m.rx.y, m.ry.y, m.rz.y, m.rw.y⟩

/-- Third column. -/
def Mat4.c3 (m : Mat4) : Vec4 := ⟨m.rx.z, m.ry.z, m.rz.z, m.rw.z⟩

/-- Fourth column. -/
def Mat4.c4 (m : Mat4) : Vec4 := ⟨m.rx.w, m.ry.w, m.rz.w, m.rw.w⟩

/-- Matrix product. -/
def Mat4.mul (a b : Mat4) : Mat4 :=
  ⟨⟨a.rx.dot b.c1, a.rx.dot b.c2, a.rx.dot b.c3, a.rx.dot b.c4⟩,
   ⟨a.ry.dot b.c1, a.ry.dot b.c2, a.ry.dot b.c3, a.ry.dot b.c4⟩,
   ⟨a.rz.dot b.c1, a.rz.dot b.c2, a.rz.dot b.c3, a.rz.dot b.c4⟩,
   ⟨a.rw.dot b.c1, a.rw.dot b.c2, a.rw.dot b.c3, a.rw.dot b.c4⟩⟩

instance : Mul Mat4 := ⟨Mat4.mul⟩

/-- `ygl::identity_mat4f`. -/
def idMat4 : Mat4 :=
  ⟨⟨1, 0, 0, 0⟩, ⟨0, 1, 0, 0⟩, ⟨0, 0, 1, 0⟩, ⟨0, 0, 0, 1⟩⟩

/-! ## Parsed parameters

A `Param` is a parameter as produced by `PBRTParser::parse_parameter`:
its type string is already normalized through `check_synonym`, and the
value payload matches the type (the C++ code stores a `void*` that the
handlers cast back according to the type string; a cast that does not
match the payload is undefined behaviour, modelled by `PErr.crash`). -/

/-- The untyped value vector behind the `void*` of `PBRTParameter`. -/
inductive PVal where
  | s (xs : List String)
  | f (xs : List ℚ)
  | i (xs : List Int)
  | b (xs : List Bool)
  | v3 (xs : List Vec3)
deriving DecidableEq, Repr

/-- Cast to `std::vector<std::string>*`. -/
def PVal.strs : PVal → Except PErr (List String)
  | PVal.s xs => Except.ok xs
  | _ => Except.error PErr.crash

/-- Cast to `std::vector<float>*`. -/
def PVal.floats : PVal → Except PErr (List ℚ)
  | PVal.f xs => Except.ok xs
  | _ => Except.error PErr.crash

/-- Cast to `std::vector<int>*`. -/
def PVal.ints : PVal → Except PErr (List Int)
  | PVal.i xs => Except.ok xs
  | _ => Except.error PErr.crash

/-- Cast to `std::vector<bool>*`. -/
def PVal.bools : PVal → Except PErr (List Bool)
  | PVal.b xs => Except.ok xs
  | _ => Except.error PErr.crash

/-- Cast to `std::vector<ygl::vec3f>*`. -/
def PVal.v3s : PVal → Except PErr (List Vec3)
  | PVal.v3 xs => Except.ok xs
  | _ => Except.error PErr.crash

/-- `PBRTParameter`: type, name and parsed value vector. -/
structure Param where
  ptype : String
  name : String
  value : PVal
deriving DecidableEq, Repr

/-! ## Scene data model

Image pixel buffers are outside the embedding: a texture carries only
the name/path metadata the parser assigns.  Materials live in an
explicit heap (`List Material`) and are referenced by index, modelling
the `ygl::material*` pointers that the graphics state, the named
material table and the scene share. -/

/-- `ygl::texture` metadata (pixel data not embedded). -/
structure Texture where
  name : String := ""
  path : String := ""
deriving DecidableEq, Repr

/-- `ygl::material_type`. -/
inductive MatType where
  | specular_roughness
  | metallic_roughness
deriving DecidableEq, Repr

/-- The fields of `ygl::material` that the parser reads or writes
(texture-image fields are outside the embedding). -/
structure Material where
  name : String := ""
  mtype : MatType := MatType.specular_roughness
  ke : Vec3 := ⟨0, 0, 0⟩
  kd : Vec3 := ⟨0, 0, 0⟩
  ks : Vec3 := ⟨0, 0, 0⟩
  kr : Vec3 := ⟨0, 0, 0⟩
  kt : Vec3 := ⟨0, 0, 0⟩
  rs : ℚ := 0
  op : ℚ := 1
  double_sided : Bool := false
deriving DecidableEq, Repr

/-- The fields of `ygl::shape` the parser fills (`mat` is a material
heap index). -/
structure Shape where
  name : String := ""
  mat : Nat := 0
  pos : List Vec3 := []
  norm : List Vec3 := []
  texcoord : List (ℚ × ℚ) := []
  triangles : List (Int × Int × Int) := []
  points : List Nat := []
  radius : List ℚ := []
deriving DecidableEq, Repr

/-- `ygl::shape_group`. -/
structure ShapeGroup where
  name : String := ""
  shapes : List Shape := []
deriving DecidableEq, Repr

/-- `ygl::instance`: a shape group reference plus a frame (kept as the
4x4 matrix fed to `ygl::mat_to_frame`). -/
structure Inst where
  name : String := ""
  shp : ShapeGroup := {}
  frame : Mat4 := idMat4
deriving DecidableEq, Repr

/-- `ygl::environment`. -/
structure Env where
  name : String := ""
  ke : Vec3 := ⟨1, 1, 1⟩
deriving DecidableEq, Repr

/-- The fields of `ygl::camera` the parser assigns (the vertical fov is
converted through the float constant pi/180 and is outside the exact
embedding). -/
structure Camera where
  name : String := ""
  aspect : ℚ := 16 / 9
  aperture : ℚ := 0
  focus : ℚ := 1
  frame : Mat4 := idMat4
deriving DecidableEq, Repr

/-- The output `ygl::scene` collections the parser appends to. -/
structure SceneT where
  cameras : List Camera := []
  shapes : List ShapeGroup := []
  instances : List Inst := []
  materials : List Nat := []
  textures : List Texture := []
  environments : List Env := []
deriving DecidableEq, Repr

/-- `AreaLightInfo` (src/src/PBRTParser.cpp lines 597-601). -/
structure ALInfo where
  active : Bool := false
  L : Vec3 := ⟨1, 1, 1⟩
  twosided : Bool := false
deriving DecidableEq, Repr

/-- `GraphicState` (src/src/PBRTParser.cpp lines 640-655): current
transformation matrix, area-light state, current material pointer, and
the name tables for textures, materials and objects (an object is its
captured shape list and capture-time matrix). -/
structure GState where
  CTM : Mat4 := idMat4
  alInfo : ALInfo := {}
  mat : Nat := 0
  nameToTexture : List (String × Texture) := []
  nameToMaterial : List (String × Nat) := []
  nameToObject : List (String × (List Shape × Mat4)) := []
deriving DecidableEq, Repr

/-- The mutable attributes of class `PBRTParser` that the world
directives touch.  `lexPath` is `current_path()` of the active lexer
(constant here: the Include machinery is not part of the directive
model).  `heap` is the allocation store for `ygl::material` objects. -/
structure PState where
  lexPath : String := "."
  CTMStack : List Mat4 := []
  stateStack : List GState := []
  gState : GState := {}
  scene : SceneT := {}
  heap : List Material := [{}]
  defaultAspect : ℚ := 16 / 9
  defaultFocus : ℚ := 1
  inObjectDefinition : Bool := false
  curObjectName : String := ""
  shapesInObject : List Shape := []
  warnings : List String := []
deriving DecidableEq, Repr

/-- The parser state right after construction: one default-constructed
material on the heap, referenced as the current material. -/
def initState : PState := {}

/-! ## Parsed material information (ParsedMaterialInfo) -/

/-- `ParsedMaterialInfo` (src/src/PBRTParser.cpp lines 603-638); the
texture pointers hold the metadata of the declared texture found by
lookup. -/
structure PMI where
  b_type : Bool := false
  type : String := ""
  b_kd : Bool := false
  kd : Vec3 := ⟨0, 0, 0⟩
  textureKd : Option Texture := none
  b_ks : Bool := false
  ks : Vec3 := ⟨0, 0, 0⟩
  textureKs : Option Texture := none
  b_kr : Bool := false
  kr : Vec3 := ⟨0, 0, 0⟩
  textureKr : Option Texture := none
  b_kt : Bool := false
  kt : Vec3 := ⟨0, 0, 0⟩
  textureKt : Option Texture := none
  b_eta : Bool := false
  eta : Vec3 := ⟨0, 0, 0⟩
  textureETA : Option Texture := none
  b_k : Bool := false
  k : Vec3 := ⟨0, 0, 0⟩
  textureK : Option Texture := none
  b_rs : Bool := false
  rs : ℚ := 0
  textureRs : Option Texture := none
  b_amount : Bool := false
  amount : ℚ := 0
  b_namedMaterial1 : Bool := false
  namedMaterial1 : String := ""
  b_namedMaterial2 : Bool := false
  namedMaterial2 : String := ""
  b_bump : Bool := false
  bump : Option Texture := none
deriving DecidableEq, Repr

/-! ## Material property parsing (parse_material_properties) -/

/-- One iteration of the parameter loop of
`PBRTParser::parse_material_properties` (src/src/PBRTParser.cpp lines
2097-2315).  Unrecognized property names are ignored.  Note the source
quirk kept on purpose: a texture-valued `roughness` stores the found
texture into the Ks texture slot. -/
def matPropStep (gs : GState) (par : Param) (pmi : PMI) : Except PErr PMI :=
  if par.name = "type" then
    if par.ptype ≠ "string" then
      Except.error (PErr.syntaxErr "Parameter type expects a string type.")
    else do
      let v ← listAt0 (← par.value.strs)
      Except.ok {pmi with b_type := true, type := v}
  else if par.name = "Kd" then
    if par.ptype = "spectrum" ∨ par.ptype = "rgb" then do
      let v ← listAt0 (← par.value.v3s)
      Except.ok {pmi with b_kd := true, kd := v}
    else if par.ptype = "texture" then do
      let tn ← listAt0 (← par.value.strs)
      match lookupA gs.nameToTexture tn with
      | none => Except.error (PErr.syntaxErr "the specified texture for Kd parameter was not found.")
      | some t => Except.ok {pmi with b_kd := true, kd := ⟨1, 1, 1⟩, textureKd := some t}
    else
      Except.error (PErr.syntaxErr "Kd parameter must be a spectrum, rgb or a texture.")
  else if par.name = "Ks" then
    if par.ptype = "spectrum" ∨ par.ptype = "rgb" then do
      let v ← listAt0 (← par.value.v3s)
      Except.ok {pmi with b_ks := true, ks := v}
    else if par.ptype = "texture" then do
      let tn ← listAt0 (← par.value.strs)
      match lookupA gs.nameToTexture tn with
      | none => Except.error (PErr.syntaxErr "the specified texture for Ks parameter was not found.")
      | some t => Except.ok {pmi with b_ks := true, ks := ⟨1, 1, 1⟩, textureKs := some t}
    else
      Except.error (PErr.syntaxErr "Ks parameter must be a spectrum, rgb or a texture.")
  else if par.name = "Kr" ∨ par.name = "reflect" then
    if par.ptype = "spectrum" ∨ par.ptype = "rgb" then do
      let v ← listAt0 (← par.value.v3s)
      Except.ok {pmi with b_kr := true, kr := v}
    else if par.ptype = "texture" then do
      let tn ← listAt0 (← par.value.strs)
      match lookupA gs.nameToTexture tn with
      | none => Except.error (PErr.syntaxErr "the specified texture for Kr parameter was not found.")
      | some t => Except.ok {pmi with b_kr := true, kr := ⟨1, 1, 1⟩, textureKr := some t}
    else
      Except.error (PErr.syntaxErr "Kr parameter must be a spectrum, rgb or a texture.")
  else if par.name = "Kt" ∨ par.name = "transmit" then
    if par.ptype = "spectrum" ∨ par.ptype = "rgb" then do
      let v ← listAt0 (← par.value.v3s)
      Except.ok {pmi with b_kt := true, kt := v}
    else if par.ptype = "texture" then do
      let tn ← listAt0 (← par.value.strs)
      match lookupA gs.nameToTexture tn with
      | none => Except.error (PErr.syntaxErr "the specified texture for Kt parameter was not found.")
      | some t => Except.ok {pmi with b_kt := true, kt := ⟨1, 1, 1⟩, textureKt := some t}
    else
      Except.error (PErr.syntaxErr "Kt parameter must be a spectrum, rgb or a texture.")
  else if par.name = "roughness" then
    if par.ptype = "float" then do
      let v ← listAt0 (← par.value.floats)
      Except.ok {pmi with b_rs := true, rs := v}
    else if par.ptype = "texture" then do
      let tn ← listAt0 (← par.value.strs)
      match lookupA gs.nameToTexture tn with
      | none => Except.error (PErr.syntaxErr "the specified texture for roughness parameter was not found.")
      | some t => Except.ok {pmi with b_rs := true, rs := 1, textureKs := some t}
    else
      Except.error (PErr.syntaxErr "roughness parameter must be a float or a texture.")
  else if par.name = "eta" then
    if par.ptype = "spectrum" ∨ par.ptype = "rgb" then do
      let v ← listAt0 (← par.value.v3s)
      Except.ok {pmi with b_eta := true, eta := v}
    else if par.ptype = "texture" then do
      let tn ← listAt0 (← par.value.strs)
      match lookupA gs.nameToTexture tn with
      | none => Except.error (PErr.syntaxErr "the specified texture for eta parameter was not found.")
      | some t => Except.ok {pmi with b_eta := true, eta := ⟨1, 1, 1⟩, textureETA := some t}
    else
      Except.error (PErr.syntaxErr "eta parameter must be a spectrum or a texture.")
  else if par.name = "k" then
    if par.ptype = "spectrum" ∨ par.ptype = "rgb" then do
      let v ← listAt0 (← par.value.v3s)
      Except.ok {pmi with b_k := true, k := v}
    else if par.ptype = "texture" then do
      let tn ← listAt0 (← par.value.strs)
      match lookupA gs.nameToTexture tn with
      | none => Except.error (PErr.syntaxErr "the specified texture for k parameter was not found.")
      | some t => Except.ok {pmi with b_k := true, k := ⟨1, 1, 1⟩, textureK := some t}
    else
      Except.error (PErr.syntaxErr "k parameter must be a spectrum or a texture.")
  else if par.name = "amount" then
    if par.ptype ≠ "float" ∧ par.ptype ≠ "rgb" then
      Except.error (PErr.syntaxErr "amount parameter expects a float or rgb type.")
    else if par.ptype = "float" then do
      let v ← listAt0 (← par.value.floats)
      Except.ok {pmi with b_amount := true, amount := v}
    else do
      let v ← listAt0 (← par.value.v3s)
      Except.ok {pmi with b_amount := true, amount := (v.x + v.y + v.z) / 3}
  else if par.name = "namedmaterial1" then
    if par.ptype ≠ "string" then
      Except.error (PErr.syntaxErr "namedmaterial expects a string type.")
    else do
      let v ← listAt0 (← par.value.strs)
      Except.ok {pmi with b_namedMaterial1 := true, namedMaterial1 := v}
  else if par.name = "namedmaterial2" then
    if par.ptype ≠ "string" then
      Except.error (PErr.syntaxErr "namedmaterial expects a string type.")
    else do
      let v ← listAt0 (← par.value.strs)
      Except.ok {pmi with b_namedMaterial2 := true, namedMaterial2 := v}
  else if par.name = "bumpmap" then
    if par.ptype ≠ "texture" then
      Except.error (PErr.syntaxErr "bumpmap expects a texture type.")
    else do
      let tn ← listAt0 (← par.value.strs)
      match lookupA gs.nameToTexture tn with
      | none => Except.error (PErr.syntaxErr "The specified texture for parameter bumpmap was not found.")
      | some t => Except.ok {pmi with b_bump := true, bump := some t}
  else
    Except.ok pmi

/-- `PBRTParser::parse_material_properties`: fold the parameter loop. -/
def parse_material_properties (gs : GState) : List Param → PMI → Except PErr PMI
  | [], pmi => Except.ok pmi
  | par :: rest, pmi => do
    let pmi2 ← matPropStep gs par pmi
    parse_material_properties gs rest pmi2

/-! ## Material builders (parse_material_*)

Each builder receives the parsed information and the freshly allocated
material and applies defaults and overrides exactly as the source does;
texture-image assignments (`kd_txt` and friends, `blend_textures`) are
outside the embedded material fields. -/

/-- `parse_material_matte` (lines 2317-2330). -/
def parse_material_matte (pmi : PMI) (mat : Material) : Material :=
  let mat := {mat with kd := ⟨1/2, 1/2, 1/2⟩}
  if pmi.b_kd then {mat with kd := pmi.kd} else mat

/-- `parse_material_uber` (lines 2332-2360). -/
def parse_material_uber (pmi : PMI) (mat : Material) : Material :=
  let mat := {mat with kd := ⟨1/4, 1/4, 1/4⟩, ks := ⟨1/4, 1/4, 1/4⟩,
                       kr := ⟨0, 0, 0⟩, rs := 1/100}
  let mat := if pmi.b_kd then {mat with kd := pmi.kd} else mat
  let mat := if pmi.b_ks then {mat with ks := pmi.ks} else mat
  let mat := if pmi.b_kr then {mat with kr := pmi.kr} else mat
  if pmi.b_rs then {mat with rs := pmi.rs} else mat

/-- `parse_material_translucent` (lines 2362-2395). -/
def parse_material_translucent (pmi : PMI) (mat : Material) : Material :=
  let mat := {mat with kd := ⟨1/4, 1/4, 1/4⟩, ks := ⟨1/4, 1/4, 1/4⟩,
                       kr := ⟨1/2, 1/2, 1/2⟩, kt := ⟨1/2, 1/2, 1/2⟩, rs := 1/10}
  let mat := if pmi.b_kd then {mat with kd := pmi.kd} else mat
  let mat := if pmi.b_ks then {mat with ks := pmi.ks} else mat
  let mat := if pmi.b_kr then {mat with kr := pmi.kr} else mat
  let mat := if pmi.b_kt then {mat with kt := pmi.kt} else mat
  if pmi.b_rs then {mat with rs := pmi.rs} else mat

/-- `parse_material_metal` (lines 2397-2418): eta goes to the specular
slot, k to the diffuse slot, and the type becomes metallic. -/
def parse_material_metal (pmi : PMI) (mat : Material) : Material :=
  let mat := {mat with rs := 1/100}
  let mat := if pmi.b_eta then {mat with ks := pmi.eta} else mat
  let mat := if pmi.b_k then {mat with kd := pmi.k} else mat
  let mat := if pmi.b_rs then {mat with rs := pmi.rs} else mat
  {mat with mtype := MatType.metallic_roughness}

/-- `parse_material_mirror` (lines 2420-2433). -/
def parse_material_mirror (pmi : PMI) (mat : Material) : Material :=
  let mat := {mat with kr := ⟨9/10, 9/10, 9/10⟩}
  if pmi.b_kr then {mat with kr := pmi.kr} else mat

/-- `parse_material_plastic` (lines 2435-2449).  Source quirk kept: only
a parsed Kr overrides anything; parsed Kd and Ks are ignored. -/
def parse_material_plastic (pmi : PMI) (mat : Material) : Material :=
  let mat := {mat with kd := ⟨1/4, 1/4, 1/4⟩, ks := ⟨1/4, 1/4, 1/4⟩, rs := 1/10}
  if pmi.b_kr then {mat with kr := pmi.kr} else mat

/-- `parse_material_mix` (src/src/PBRTParser.cpp lines 2560-2602): both
named materials are required; each scalar or vector reflectance field
and the roughness are blended as amount times the first material plus
(1 - amount) times the second, as is the opacity. -/
def parse_material_mix (gs : GState) (heap : List Material) (pmi : PMI)
    (mat : Material) : Except PErr Material :=
  let amount : ℚ := if pmi.b_amount then pmi.amount else 1/2
  if ¬pmi.b_namedMaterial1 then
    Except.error (PErr.syntaxErr "Missing material1 to mix.")
  else if ¬pmi.b_namedMaterial2 then
    Except.error (PErr.syntaxErr "Missing material2 to mix.")
  else
    match lookupA gs.nameToMaterial pmi.namedMaterial1 with
    | none => Except.error (PErr.syntaxErr ("NamedMaterial1 " ++ pmi.namedMaterial1 ++ " was not declared."))
    | some i1 =>
      match lookupA gs.nameToMaterial pmi.namedMaterial2 with
      | none => Except.error (PErr.syntaxErr ("NamedMaterial2 " ++ pmi.namedMaterial2 ++ " was not declared."))
      | some i2 =>
        let mat1 := heap.getD i1 {}
        let mat2 := heap.getD i2 {}
        Except.ok {mat with
          kd := Vec3.add (Vec3.smul (1 - amount) mat2.kd) (Vec3.smul amount mat1.kd),
          kr := Vec3.add (Vec3.smul (1 - amount) mat2.kr) (Vec3.smul amount mat1.kr),
          ks := Vec3.add (Vec3.smul (1 - amount) mat2.ks) (Vec3.smul amount mat1.ks),
          kt := Vec3.add (Vec3.smul (1 - amount) mat2.kt) (Vec3.smul amount mat1.kt),
          rs := (1 - amount) * mat2.rs + amount * mat1.rs,
          op := mat1.op * amount + mat2.op * (1 - amount)}

/-! ## Material directives -/

/-- Shared tail of `execute_Material` (lines 2092-2093): install the
built material as the current one and append it to the scene material
list (allocation of the `new ygl::material`). -/
def finishMaterial (st : PState) (m : Material) : Except PErr PState :=
  let mid := st.heap.length
  Except.ok {st with
    heap := st.heap ++ [m],
    gState := {st.gState with mat := mid},
    scene := {st.scene with materials := st.scene.materials ++ [mid]}}

/-- The warning message of the unsupported-subtype branch of
`execute_Material`. -/
def unsupportedMaterialMsg (subtype : String) : String :=
  "Material " ++ subtype ++ " not supported. Ignoring and using matte.."

/-- `PBRTParser::execute_Material` (src/src/PBRTParser.cpp lines
2056-2095): build a material according to the subtype, falling back to
matte with a warning for unsupported subtypes, then install it as the
current material and append it to the scene. -/
def execute_Material (subtype : String) (params : List Param) (st : PState) :
    Except PErr PState :=
  let mat0 : Material :=
    {name := join_string_int "material" st.scene.materials.length,
     mtype := MatType.specular_roughness}
  if subtype = "matte" then do
    let pmi ← parse_material_properties st.gState params {}
    finishMaterial st (parse_material_matte pmi mat0)
  else if subtype = "metal" then do
    let pmi ← parse_material_properties st.gState params {}
    finishMaterial st (parse_material_metal pmi mat0)
  else if subtype = "mix" then do
    let pmi ← parse_material_properties st.gState params {}
    let m ← parse_material_mix st.gState st.heap pmi mat0
    finishMaterial st m
  else if subtype = "plastic" then do
    let pmi ← parse_material_properties st.gState params {}
    finishMaterial st (parse_material_plastic pmi mat0)
  else if subtype = "mirror" then do
    let pmi ← parse_material_properties st.gState params {}
    finishMaterial st (parse_material_mirror pmi mat0)
  else if subtype = "uber" then do
    let pmi ← parse_material_properties st.gState params {}
    finishMaterial st (parse_material_uber pmi mat0)
  else if subtype = "translucent" then do
    let pmi ← parse_material_properties st.gState params {}
    finishMaterial st (parse_material_translucent pmi mat0)
  else do
    let st2 := {st with warnings := st.warnings ++ [unsupportedMaterialMsg subtype]}
    let pmi ← parse_material_properties st2.gState params {}
    finishMaterial st2 (parse_material_matte pmi mat0)

/-- `PBRTParser::execute_MakeNamedMaterial` (lines 2604-2642): reject a
redefined name, require a type property, reject unknown types, register
the material in the graphics-state name table and append it to the
scene (the current material is not changed). -/
def execute_MakeNamedMaterial (mname : String) (params : List Param)
    (st : PState) : Except PErr PState :=
  match lookupA st.gState.nameToMaterial mname with
  | some _ => Except.error (PErr.syntaxErr "A material with the specified name already exists.")
  | none => do
    let pmi ← parse_material_properties st.gState params {}
    let mat0 : Material := {name := join_string_int "material" st.scene.materials.length}
    if ¬pmi.b_type then
      Except.error (PErr.syntaxErr "Expected material type.")
    else do
      let m ←
        if pmi.type = "metal" then Except.ok (parse_material_metal pmi mat0)
        else if pmi.type = "plastic" then Except.ok (parse_material_plastic pmi mat0)
        else if pmi.type = "matte" then Except.ok (parse_material_matte pmi mat0)
        else if pmi.type = "mirror" then Except.ok (parse_material_mirror pmi mat0)
        else if pmi.type = "uber" then Except.ok (parse_material_uber pmi mat0)
        else if pmi.type = "mix" then parse_material_mix st.gState st.heap pmi mat0
        else if pmi.type = "translucent" then Except.ok (parse_material_translucent pmi mat0)
        else Except.error (PErr.syntaxErr ("Material type " ++ pmi.type ++ " not supported or recognized."))
      let mid := st.heap.length
      Except.ok {st with
        heap := st.heap ++ [m],
        gState := {st.gState with nameToMaterial := (mname, mid) :: st.gState.nameToMaterial},
        scene := {st.scene with materials := st.scene.materials ++ [mid]}}

/-- `PBRTParser::execute_NamedMaterial` (lines 2644-2655): install the
named material as the current one. -/
def execute_NamedMaterial (mname : String) (st : PState) : Except PErr PState :=
  match lookupA st.gState.nameToMaterial mname with
  | none => Except.error (PErr.syntaxErr "No material with the specified name.")
  | some mid => Except.ok {st with gState := {st.gState with mat := mid}}

/-! ## Texture directive -/

/-- The filename-parameter loop of `execute_Texture` (lines 2689-2700). -/
def texFilenameFold (lexPath : String) : List Param → String → Except PErr String
  | [], acc => Except.ok acc
  | par :: rest, acc =>
    if par.name = "filename" then
      if par.ptype ≠ "string" then
        Except.error (PErr.syntaxErr "filename parameter must have string type.")
      else do
        let v ← listAt0 (← par.value.strs)
        texFilenameFold lexPath rest (lexPath ++ "/" ++ v)
    else
      texFilenameFold lexPath rest acc

/-- `PBRTParser::execute_Texture` (src/src/PBRTParser.cpp lines
2657-2714): reject a reused name, an unsupported pixel type or a class
other than imagemap; then create the texture, push it into the scene
texture list, load the image by suffix (png or exr, anything else a
syntax error) and register the name in the graphics state. -/
def execute_Texture (tname ptypeRaw tclass : String) (params : List Param)
    (st : PState) : Except PErr PState :=
  match lookupA st.gState.nameToTexture tname with
  | some _ => Except.error (PErr.syntaxErr "Texture name already used.")
  | none =>
    let ptype := check_synonym ptypeRaw
    if ptype ≠ "spectrum" ∧ ptype ≠ "rgb" ∧ ptype ≠ "float" then
      Except.error (PErr.syntaxErr ("Unsupported texture type: " ++ ptype))
    else if tclass ≠ "imagemap" then
      Except.error (PErr.syntaxErr "Only imagemap and color texture type is supported.")
    else do
      let filename ← texFilenameFold st.lexPath params ""
      let txt : Texture := {name := "", path := filename}
      let st2 := {st with scene := {st.scene with textures := st.scene.textures ++ [txt]}}
      if endsWithS filename ".png" ∨ endsWithS filename ".exr" then
        Except.ok {st2 with gState := {st2.gState with nameToTexture := (tname, txt) :: st2.gState.nameToTexture}}
      else
        Except.error (PErr.syntaxErr "Texture format not recognised.")

/-! ## Shape directive -/

/-- Regroup a flat index list into triangles (the grouping loop of
`parse_trianglemesh`; the caller has checked divisibility by 3). -/
def chunk3 : List Int → List (Int × Int × Int)
  | a :: b :: c :: t => (a, b, c) :: chunk3 t
  | _ => []

/-- Regroup a flat float list into uv pairs (the uv loop of
`parse_trianglemesh`). -/
def pairs2 : List ℚ → List (ℚ × ℚ)
  | a :: b :: t => (a, b) :: pairs2 t
  | _ => []

/-- The parameter loop of `PBRTParser::parse_trianglemesh`
(src/src/PBRTParser.cpp lines 1678-1743), threading the shape under
construction and the indices/positions presence flags.  A uv list of
odd length drives `at` past the end of the vector (crash). -/
def tmFold : List Param → Shape → Bool → Bool → Except PErr (Shape × Bool × Bool)
  | [], shp, ic, pc => Except.ok (shp, ic, pc)
  | par :: rest, shp, ic, pc =>
    if par.name = "indices" then
      if par.ptype ≠ "integer" then
        Except.error (PErr.syntaxErr "indices parameter must have integer type.")
      else do
        let data ← par.value.ints
        if data.length % 3 ≠ 0 then
          Except.error (PErr.syntaxErr "indices parameter has a value array with wrong size (must be multiple of 3).")
        else
          tmFold rest {shp with triangles := shp.triangles ++ chunk3 data} true pc
    else if par.name = "P" then
      if par.ptype ≠ "point3" then
        Except.error (PErr.syntaxErr "P parameter must be of point3 type.")
      else do
        let data ← par.value.v3s
        tmFold rest {shp with pos := shp.pos ++ data,
                              radius := shp.radius ++ data.map (fun _ => 1)} ic true
    else if par.name = "N" then
      if par.ptype ≠ "normal3" then
        Except.error (PErr.syntaxErr "N parameter must be of normal3 type.")
      else do
        let data ← par.value.v3s
        tmFold rest {shp with norm := shp.norm ++ data} ic pc
    else if par.name = "uv" then
      if par.ptype ≠ "float" then
        Except.error (PErr.syntaxErr "uv parameter must be of float type.")
      else do
        let data ← par.value.floats
        if data.length % 2 ≠ 0 then Except.error PErr.crash
        else tmFold rest {shp with texcoord := shp.texcoord ++ pairs2 data} ic pc
    else
      tmFold rest shp ic pc

/-- `PBRTParser::parse_trianglemesh`: run the parameter loop and require
both indices and positions. -/
def parse_trianglemesh (params : List Param) (shp : Shape) : Except PErr Shape := do
  let r ← tmFold params shp false false
  if ¬(r.2.1 ∧ r.2.2) then
    Except.error (PErr.syntaxErr "Missing indices or positions in triangle mesh specification.")
  else
    Except.ok r.1

/-- Truncation of a rational toward zero, the C++ float-to-int
conversion used for the curve width. -/
def ratTrunc (q : ℚ) : Int := q.num / (q.den : Int)

/-- The parameter state threaded by `parse_curve`. -/
structure CurveInfo where
  p : Option (List Vec3) := none
  degree : Int := 3
  ctype : String := ""
  width : Int := 1
deriving DecidableEq, Repr

/-- The parameter loop of `PBRTParser::parse_curve` (lines 1596-1648). -/
def curveFold : List Param → CurveInfo → Except PErr CurveInfo
  | [], ci => Except.ok ci
  | par :: rest, ci =>
    if par.name = "p" then
      if par.ptype ≠ "point3" then
        Except.error (PErr.syntaxErr "Parameter p must be of point type.")
      else do
        let data ← par.value.v3s
        curveFold rest {ci with p := some data}
    else if par.name = "degree" then
      if par.ptype ≠ "integer" then
        Except.error (PErr.syntaxErr "Parameter degree must be of integer type.")
      else do
        let v ← listAt0 (← par.value.ints)
        curveFold rest {ci with degree := v}
    else if par.name = "type" then
      if par.ptype ≠ "string" then
        Except.error (PErr.syntaxErr "Parameter type must be of string type.")
      else do
        let v ← listAt0 (← par.value.strs)
        curveFold rest {ci with ctype := v}
    else if par.name = "N" then
      if par.ptype ≠ "normal3" then
        Except.error (PErr.syntaxErr "Parameter N must be of normal type.")
      else do
        let _ ← par.value.v3s
        curveFold rest ci
    else if par.name = "splitdepth" then
      if par.ptype ≠ "integer" then
        Except.error (PErr.syntaxErr "Parameter splitdepth must be of normal type.")
      else do
        let _ ← listAt0 (← par.value.ints)
        curveFold rest ci
    else if par.name = "width" then
      if par.ptype ≠ "float" then
        Except.error (PErr.syntaxErr "Parameter width must be of float type.")
      else do
        let v ← listAt0 (← par.value.floats)
        curveFold rest {ci with width := ratTrunc v}
    else
      curveFold rest ci

/-- `PBRTParser::parse_curve`: as in the source, the vertices are added
when the degree is 3 and the type string differs from "bezier" (with a
null dereference when no p parameter was given); otherwise a syntax
error is raised. -/
def parse_curve (params : List Param) (shp : Shape) : Except PErr Shape := do
  let ci ← curveFold params {}
  if ci.degree = 3 ∧ ci.ctype ≠ "bezier" then
    match ci.p with
    | none => Except.error PErr.crash
    | some ps =>
      Except.ok {shp with pos := shp.pos ++ ps,
                          radius := shp.radius ++ ps.map (fun _ => ((ci.width : ℚ)))}
  else
    Except.error (PErr.syntaxErr "Other types of curve than cubic bezier are not supported.")

/-- Shared tail of `execute_Shape` (lines 1795-1813): wrap the shape in
a new shape group, append the group to the scene shape list, then either
record the shape for the in-flight object or create a single named
instance at the current transformation. -/
def addShape (st : PState) (shp : Shape) (shpName : String) : PState :=
  let sg : ShapeGroup := {name := shpName, shapes := [shp]}
  let st2 := {st with scene := {st.scene with shapes := st.scene.shapes ++ [sg]}}
  if st2.inObjectDefinition then
    {st2 with shapesInObject := st2.shapesInObject ++ [shp]}
  else
    let inst : Inst := {name := join_string_int "instance" st2.scene.instances.length,
                        shp := sg, frame := st2.gState.CTM}
    {st2 with scene := {st2.scene with instances := st2.scene.instances ++ [inst]}}

/-- `PBRTParser::execute_Shape` (src/src/PBRTParser.cpp lines
1745-1814).  The shape is named from the scene shape counter, receives
the current material, and in area-light mode the current material is
mutated in place (emission and two-sidedness).  Subtypes: curve,
trianglemesh, cube (procedural geometry external), plymesh (external
mesh file I/O, outside the embedding, marked as crash; no claim
exercises it); any other subtype is skipped with a warning and adds
nothing. -/
def execute_Shape (subtype : String) (params : List Param) (st : PState) :
    Except PErr PState :=
  let shpName := join_string_int "shape" st.scene.shapes.length
  let st :=
    if st.gState.alInfo.active then
      {st with heap := (st.heap.set st.gState.mat
        {st.heap.getD st.gState.mat {} with
          ke := st.gState.alInfo.L, double_sided := st.gState.alInfo.twosided})}
    else st
  let shp0 : Shape := {name := shpName, mat := st.gState.mat}
  if subtype = "curve" then do
    let shp ← parse_curve params shp0
    Except.ok (addShape st shp shpName)
  else if subtype = "trianglemesh" then do
    let shp ← parse_trianglemesh params shp0
    Except.ok (addShape st shp shpName)
  else if subtype = "cube" then
    Except.ok (addShape st shp0 shpName)
  else if subtype = "plymesh" then
    Except.error PErr.crash
  else
    Except.ok {st with warnings := st.warnings ++ ["Ignoring shape " ++ subtype ++ ".."]}

/-! ## Lights -/

/-- The parameter loop of `PBRTParser::parse_PointLight` (lines
1957-1982): I and scale require the declared type "spectrum", from
requires point3 (or the pre-normalization alias "point", which the
parameter engine never produces). -/
def plFold : List Param → Vec3 × Vec3 × Vec3 → Except PErr (Vec3 × Vec3 × Vec3)
  | [], acc => Except.ok acc
  | par :: rest, (scale, i, fromP) =>
    if par.name = "scale" then
      if par.ptype ≠ "spectrum" then
        Except.error (PErr.syntaxErr "scale parameter expects a spectrum type.")
      else do
        let v ← listAt0 (← par.value.v3s)
        plFold rest (v, i, fromP)
    else if par.name = "I" then
      if par.ptype ≠ "spectrum" then
        Except.error (PErr.syntaxErr "I parameter expects a spectrum type.")
      else do
        let v ← listAt0 (← par.value.v3s)
        plFold rest (scale, v, fromP)
    else if par.name = "from" then
      if par.ptype ≠ "point3" ∧ par.ptype ≠ "point" then
        Except.error (PErr.syntaxErr "from parameter expects a point type.")
      else do
        let v ← listAt0 (← par.value.v3s)
        plFold rest (scale, i, v)
    else
      plFold rest (scale, i, fromP)

/-- `PBRTParser::parse_PointLight` (src/src/PBRTParser.cpp lines
1952-2009): build a one-point shape whose fresh material has emission
I componentwise-times scale, append shape group and material to the
scene, and wrap the group in a single instance framed by the current
transformation matrix. -/
def parse_PointLight (params : List Param) (st : PState) : Except PErr PState := do
  let r ← plFold params (⟨1, 1, 1⟩, ⟨1, 1, 1⟩, ⟨0, 0, 0⟩)
  let scale := r.1
  let i := r.2.1
  let fromP := r.2.2
  let sgName := join_string_int "shape" st.scene.shapes.length
  let mid := st.heap.length
  let lgtMat : Material := {name := join_string_int "material" st.scene.materials.length,
                            ke := Vec3.cmul i scale}
  let shp : Shape := {name := sgName, mat := mid, pos := [fromP], points := [0], radius := [1]}
  let sg : ShapeGroup := {name := sgName, shapes := [shp]}
  let st2 := {st with
    heap := st.heap ++ [lgtMat],
    scene := {st.scene with
      materials := st.scene.materials ++ [mid],
      shapes := st.scene.shapes ++ [sg]}}
  let inst : Inst := {name := join_string_int "instance" st2.scene.instances.length,
                      shp := sg, frame := st2.gState.CTM}
  Except.ok {st2 with scene := {st2.scene with instances := st2.scene.instances ++ [inst]}}

/-- The parameter loop of `PBRTParser::parse_InfiniteLight` (lines
1902-1927): scale and L accept spectrum or rgb, mapname a string. -/
def ilFold : List Param → Vec3 × Vec3 × String → Except PErr (Vec3 × Vec3 × String)
  | [], acc => Except.ok acc
  | par :: rest, (scale, l, mapname) =>
    if par.name = "scale" then
      if par.ptype ≠ "spectrum" ∧ par.ptype ≠ "rgb" then
        Except.error (PErr.syntaxErr "scale parameter expects a spectrum or rgb type.")
      else do
        let v ← listAt0 (← par.value.v3s)
        ilFold rest (v, l, mapname)
    else if par.name = "L" then
      if par.ptype ≠ "spectrum" ∧ par.ptype ≠ "rgb" then
        Except.error (PErr.syntaxErr "L parameter expects a spectrum or rgb type.")
      else do
        let v ← listAt0 (← par.value.v3s)
        ilFold rest (scale, v, mapname)
    else if par.name = "mapname" then
      if par.ptype ≠ "string" then
        Except.error (PErr.syntaxErr "mapname parameter expects a string type.")
      else do
        let v ← listAt0 (← par.value.strs)
        ilFold rest (scale, l, v)
    else
      ilFold rest (scale, l, mapname)

/-- `PBRTParser::parse_InfiniteLight` (src/src/PBRTParser.cpp lines
1896-1950): create an environment with emission scale
componentwise-times L; with a mapname, push a texture named after the
file (path concatenated without a separator, as in the source) into the
scene and require a png or exr suffix. -/
def parse_InfiniteLight (params : List Param) (st : PState) : Except PErr PState := do
  let r ← ilFold params (⟨1, 1, 1⟩, ⟨1, 1, 1⟩, "")
  let scale := r.1
  let l := r.2.1
  let mapname := r.2.2
  let env : Env := {name := join_string_int "env" st.scene.environments.length,
                    ke := Vec3.cmul scale l}
  let st2 ←
    if mapname.length > 0 then do
      let completePath := st.lexPath ++ mapname
      let pn := get_path_and_filename completePath
      let txt : Texture := {name := pn.2, path := pn.1}
      let stT := {st with scene := {st.scene with textures := st.scene.textures ++ [txt]}}
      if endsWithS mapname ".png" ∨ endsWithS mapname ".exr" then
        Except.ok stT
      else
        Except.error (PErr.syntaxErr "Texture format not recognised.")
    else
      Except.ok st
  Except.ok {st2 with scene := {st2.scene with environments := st2.scene.environments ++ [env]}}

/-- `PBRTParser::execute_LightSource` (lines 1876-1894): point lights,
infinite lights, distant treated as infinite, anything else a syntax
error. -/
def execute_LightSource (subtype : String) (params : List Param) (st : PState) :
    Except PErr PState :=
  if subtype = "point" then parse_PointLight params st
  else if subtype = "infinite" then parse_InfiniteLight params st
  else if subtype = "distant" then parse_InfiniteLight params st
  else Except.error (PErr.syntaxErr ("Light type " ++ subtype ++ " not supported."))

/-- The parameter loop of `PBRTParser::execute_AreaLightSource` (lines
2024-2049).  Source quirk kept: the spectrum alternative for L is the
misspelled literal "specturm", so in practice only rgb passes. -/
def alFold : List Param → Vec3 × Vec3 × Bool → Except PErr (Vec3 × Vec3 × Bool)
  | [], acc => Except.ok acc
  | par :: rest, (scale, l, twosided) =>
    if par.name = "scale" then
      if par.ptype ≠ "spectrum" then
        Except.error (PErr.syntaxErr "scale parameter expects a spectrum type.")
      else do
        let v ← listAt0 (← par.value.v3s)
        alFold rest (v, l, twosided)
    else if par.name = "L" then
      if par.ptype ≠ "specturm" ∧ par.ptype ≠ "rgb" then
        Except.error (PErr.syntaxErr "L parameter expects a spectrum type.")
      else do
        let v ← listAt0 (← par.value.v3s)
        alFold rest (scale, v, twosided)
    else if par.name = "twosided" then
      if par.ptype ≠ "bool" then
        Except.error (PErr.syntaxErr "twosided parameter expects a bool type.")
      else do
        let v ← listAt0 (← par.value.bools)
        alFold rest (scale, l, v)
    else
      alFold rest (scale, l, twosided)

/-- `PBRTParser::execute_AreaLightSource` (lines 2011-2054): set the
area-light state on the current graphics state (the parsed scale is
read but not used further, as in the source). -/
def execute_AreaLightSource (params : List Param) (st : PState) :
    Except PErr PState := do
  let r ← alFold params (⟨1, 1, 1⟩, ⟨1, 1, 1⟩, false)
  Except.ok {st with gState := {st.gState with
    alInfo := {active := true, L := r.2.1, twosided := r.2.2}}}

/-! ## Object blocks and instances -/

/-- `ObjectBegin` entry of `PBRTParser::execute_ObjectBlock` (lines
1816-1832): nested object definitions raise a syntax error; otherwise
the parser records the object name and enters object-definition mode
(no graphics-state push is performed). -/
def execute_ObjectBegin (oname : String) (st : PState) : Except PErr PState :=
  if st.inObjectDefinition then
    Except.error (PErr.syntaxErr "Cannot define an object inside another object.")
  else
    Except.ok {st with inObjectDefinition := true, curObjectName := oname}

/-- `ObjectEnd` exit of `PBRTParser::execute_ObjectBlock` (lines
1838-1845): register (or overwrite) the collected shapes together with
the current transformation matrix under the object name and leave
object-definition mode (no graphics-state pop is performed).  Outside
an object definition the directive is unknown to the dispatcher and is
skipped with a warning. -/
def execute_ObjectEnd (st : PState) : Except PErr PState :=
  if st.inObjectDefinition then
    Except.ok {st with
      gState := {st.gState with
        nameToObject := setA st.gState.nameToObject st.curObjectName
          (st.shapesInObject, st.gState.CTM)},
      inObjectDefinition := false,
      shapesInObject := []}
  else
    Except.ok {st with warnings := st.warnings ++ ["Ignoring ObjectEnd directive.."]}

/-- `PBRTParser::execute_ObjectInstance` (src/src/PBRTParser.cpp lines
1848-1874): look up the declared object, build a fresh unnamed shape
group sharing the declared shapes, and push an unnamed instance whose
frame is the current matrix times the capture-time matrix.  Nothing is
appended to the scene shape list here. -/
def execute_ObjectInstance (oname : String) (st : PState) : Except PErr PState :=
  match lookupA st.gState.nameToObject oname with
  | none => Except.error (PErr.syntaxErr "Object name not found.")
  | some obj =>
    let finalCTM := st.gState.CTM * obj.2
    let sg : ShapeGroup := {name := "", shapes := obj.1}
    let inst : Inst := {name := "", shp := sg, frame := finalCTM}
    Except.ok {st with scene := {st.scene with instances := st.scene.instances ++ [inst]}}

/-! ## Pre-world directives: Film and Camera -/

/-- The parameter loop of `PBRTParser::execute_Film` (lines 1525-1545). -/
def filmFold : List Param → Int × Int → Except PErr (Int × Int)
  | [], acc => Except.ok acc
  | par :: rest, (xres, yres) =>
    if par.name = "xresolution" then
      if par.ptype ≠ "integer" then
        Except.error (PErr.syntaxErr "xresolution must have integer type.")
      else do
        let v ← listAt0 (← par.value.ints)
        filmFold rest (v, yres)
    else if par.name = "yresolution" then
      if par.ptype ≠ "integer" then
        Except.error (PErr.syntaxErr "yresolution must have integer type.")
      else do
        let v ← listAt0 (← par.value.ints)
        filmFold rest (xres, v)
    else
      filmFold rest (xres, yres)

/-- `PBRTParser::execute_Film` (src/src/PBRTParser.cpp lines 1510-1553):
only the image film type is accepted; when both resolutions are nonzero
the default aspect becomes xres divided by yres (no clamping in the
source) and is written into every camera created so far. -/
def execute_Film (ftype : String) (params : List Param) (st : PState) :
    Except PErr PState :=
  if ftype ≠ "image" then
    Except.error (PErr.syntaxErr "Only image film is supported.")
  else do
    let r ← filmFold params (0, 0)
    if r.1 ≠ 0 ∧ r.2 ≠ 0 then
      let aspect : ℚ := (r.1 : ℚ) / (r.2 : ℚ)
      Except.ok {st with
        defaultAspect := aspect,
        scene := {st.scene with
          cameras := st.scene.cameras.map (fun c => {c with aspect := aspect})}}
    else
      Except.ok st

/-- The parameter loop of `PBRTParser::execute_Camera` (lines
1461-1503); the fov branch performs its type check but the radian
conversion through the float pi constant is outside the embedding. -/
def camFold : List Param → Camera → Except PErr Camera
  | [], cam => Except.ok cam
  | par :: rest, cam =>
    if par.name = "frameaspectratio" then
      if par.ptype ≠ "float" then
        Except.error (PErr.syntaxErr "floataspectratio must have type float.")
      else do
        let v ← listAt0 (← par.value.floats)
        camFold rest {cam with aspect := v}
    else if par.name = "lensradius" then
      if par.ptype ≠ "float" then
        Except.error (PErr.syntaxErr "lensradius must have type float.")
      else do
        let v ← listAt0 (← par.value.floats)
        camFold rest {cam with aperture := v}
    else if par.name = "focaldistance" then
      if par.ptype ≠ "float" then
        Except.error (PErr.syntaxErr "focaldistance must have type float.")
      else do
        let v ← listAt0 (← par.value.floats)
        camFold rest {cam with focus := v}
    else if par.name = "fov" then
      if par.ptype ≠ "float" then
        Except.error (PErr.syntaxErr "fov must have type float.")
      else do
        let _ ← listAt0 (← par.value.floats)
        camFold rest cam
    else
      camFold rest cam

/-- `PBRTParser::execute_Camera` (src/src/PBRTParser.cpp lines
1436-1505): only the perspective type is supported; the camera starts
from the default aspect and focus, its frame is the current matrix, and
it is appended to the scene camera list. -/
def execute_Camera (camType : String) (params : List Param) (st : PState) :
    Except PErr PState :=
  if camType ≠ "perspective" then
    Except.error (PErr.syntaxErr "Only perspective camera type supported.")
  else do
    let cam0 : Camera := {name := join_string_int "camera" st.scene.cameras.length,
                          aspect := st.defaultAspect, aperture := 0,
                          focus := st.defaultFocus, frame := st.gState.CTM}
    let cam ← camFold params cam0
    Except.ok {st with scene := {st.scene with cameras := st.scene.cameras ++ [cam]}}

/-! ## The world-directive machine -/

/-- A world directive after tokenization and parameter parsing.  The
transformation directives Translate, Scale, Rotate, ConcatTransform and
LookAt all post-multiply the current matrix by a matrix built from
their numeric arguments (the trigonometric builders are external); they
are embedded as `applyMatrix`.  Transform replaces the matrix
(`setMatrix`).  Identifiers not in the world dispatch table are
`unknownD` and are skipped with a warning. -/
inductive Directive where
  | attributeBegin
  | attributeEnd
  | transformBegin
  | transformEnd
  | applyMatrix (m : Mat4)
  | setMatrix (m : Mat4)
  | shape (subtype : String) (params : List Param)
  | objectBegin (oname : String)
  | objectEnd
  | objectInstance (oname : String)
  | lightSource (subtype : String) (params : List Param)
  | areaLightSource (subtype : String) (params : List Param)
  | material (subtype : String) (params : List Param)
  | makeNamedMaterial (mname : String) (params : List Param)
  | namedMaterial (mname : String)
  | texture (tname ptype tclass : String) (params : List Param)
  | unknownD (dname : String)
deriving DecidableEq, Repr

/-- One step of the world-directive dispatcher
(`PBRTParser::parse_world_directive`, src/src/PBRTParser.cpp lines
935-1004; identical dispatch inside object blocks, lines 1006-1075).
`execute_AttributeEnd` and `execute_TransformEnd` (lines 1569-1587) pop
their stacks without an emptiness check: on an empty stack the
`back()` call is an out-of-bounds access, modelled as `crash`. -/
def step (st : PState) : Directive → Except PErr PState
  | Directive.attributeBegin =>
    Except.ok {st with stateStack := st.gState :: st.stateStack}
  | Directive.attributeEnd =>
    match st.stateStack with
    | [] => Except.error PErr.crash
    | g :: rest => Except.ok {st with gState := g, stateStack := rest}
  | Directive.transformBegin =>
    Except.ok {st with CTMStack := st.gState.CTM :: st.CTMStack}
  | Directive.transformEnd =>
    match st.CTMStack with
    | [] => Except.error PErr.crash
    | m :: rest => Except.ok {st with gState := {st.gState with CTM := m}, CTMStack := rest}
  | Directive.applyMatrix m =>
    Except.ok {st with gState := {st.gState with CTM := st.gState.CTM * m}}
  | Directive.setMatrix m =>
    Except.ok {st with gState := {st.gState with CTM := m}}
  | Directive.shape subtype params => execute_Shape subtype params st
  | Directive.objectBegin oname => execute_ObjectBegin oname st
  | Directive.objectEnd => execute_ObjectEnd st
  | Directive.objectInstance oname => execute_ObjectInstance oname st
  | Directive.lightSource subtype params => execute_LightSource subtype params st
  | Directive.areaLightSource _ params => execute_AreaLightSource params st
  | Directive.material subtype params => execute_Material subtype params st
  | Directive.makeNamedMaterial mname params => execute_MakeNamedMaterial mname params st
  | Directive.namedMaterial mname => execute_NamedMaterial mname st
  | Directive.texture tname ptype tclass params => execute_Texture tname ptype tclass params st
  | Directive.unknownD dname =>
    Except.ok {st with warnings := st.warnings ++ ["Ignoring " ++ dname ++ " directive.."]}

/-- Run a list of world directives (the world loop of
`PBRTParser::parse_world_directives`); an exception aborts the parse. -/
def run : PState → List Directive → Except PErr PState
  | st, [] => Except.ok st
  | st, d :: ds =>
    match step st d with
    | Except.ok st2 => run st2 ds
    | Except.error e => Except.error e

/-- Decidable equality of parse results (needed to evaluate the model on
concrete inputs inside proofs). -/
def exceptDecEq {ε α : Type} [DecidableEq ε] [DecidableEq α] :
    (a b : Except ε α) → Decidable (a = b)
  | Except.ok a, Except.ok b =>
    if h : a = b then Decidable.isTrue (congrArg Except.ok h)
    else Decidable.isFalse (fun hh => h (Except.ok.inj hh))
  | Except.ok _, Except.error _ => Decidable.isFalse (fun hh => Except.noConfusion hh)
  | Except.error _, Except.ok _ => Decidable.isFalse (fun hh => Except.noConfusion hh)
  | Except.error e, Except.error f =>
    if h : e = f then Decidable.isTrue (congrArg Except.error h)
    else Decidable.isFalse (fun hh => h (Except.error.inj hh))

instance {ε α : Type} [DecidableEq ε] [DecidableEq α] : DecidableEq (Except ε α) :=
  exceptDecEq

/-! ## Identifier projections and the naming invariant -/

/-- Name of the j-th scene shape group. -/
def sgNameAt (st : PState) (j : Nat) : String := (st.scene.shapes.getD j {}).name

/-- Name of the j-th scene material (a heap dereference). -/
def matNameAt (st : PState) (j : Nat) : String :=
  (st.heap.getD (st.scene.materials.getD j 0) {}).name

/-- Name of the j-th scene environment. -/
def envNameAt (st : PState) (j : Nat) : String := (st.scene.environments.getD j {}).name

/-- Name of the j-th scene instance. -/
def instNameAt (st : PState) (j : Nat) : String := (st.scene.instances.getD j {}).name

/-- Naming discipline maintained by the world-directive machine: scene
shape groups, materials and environments carry the identifier generated
from their insertion index, and every instance carries either such an
identifier or the empty name (instances created by ObjectInstance are
never named). -/
def NamesInv (st : PState) : Prop :=
  (∀ j, j < st.scene.shapes.length → sgNameAt st j = join_string_int "shape" j) ∧
  (∀ j, j < st.scene.materials.length →
    st.scene.materials.getD j 0 < st.heap.length ∧
    matNameAt st j = join_string_int "material" j) ∧
  (∀ j, j < st.scene.environments.length → envNameAt st j = join_string_int "env" j) ∧
  (∀ j, j < st.scene.instances.length →
    instNameAt st j = "" ∨ instNameAt st j = join_string_int "instance" j)

/-! ## Concrete fixtures used to evaluate the model -/

/-- A sample non-identity matrix (a translation-shaped matrix). -/
def mA : Mat4 := ⟨⟨1, 0, 0, 5⟩, ⟨0, 1, 0, 7⟩, ⟨0, 0, 1, 3⟩, ⟨0, 0, 0, 1⟩⟩

/-- A second sample matrix. -/
def mB : Mat4 := ⟨⟨2, 0, 0, 0⟩, ⟨0, 2, 0, 0⟩, ⟨0, 0, 2, 0⟩, ⟨1, 0, 0, 1⟩⟩

/-- A graphics state with a marked transformation matrix. -/
def gsA : GState := {CTM := mA}

/-- A Texture directive declaring a texture that is never referenced
afterwards. -/
def c3dirs : List Directive :=
  [Directive.texture "tex" "spectrum" "imagemap"
    [⟨"string", "filename", PVal.s ["img.png"]⟩]]

/-- Declare object "obj" containing one cube shape under matrix mA,
then set the matrix to mB and instantiate the object twice. -/
def c4dirs : List Directive :=
  [Directive.objectBegin "obj", Directive.applyMatrix mA,
   Directive.shape "cube" [], Directive.objectEnd,
   Directive.setMatrix mB,
   Directive.objectInstance "obj", Directive.objectInstance "obj"]

/-- An object block containing only a transformation. -/
def c5dirs : List Directive :=
  [Directive.objectBegin "obj", Directive.applyMatrix mA, Directive.objectEnd]

/-- A parser state owning one camera, as after a pre-world Camera
directive. -/
def c7state : PState :=
  {initState with scene := {cameras := [{name := "camera_0"}]}}

/-- Declare an object and instantiate it twice (each instantiation
pushes an unnamed instance). -/
def c9dirs : List Directive :=
  [Directive.objectBegin "obj", Directive.shape "cube" [], Directive.objectEnd,
   Directive.objectInstance "obj", Directive.objectInstance "obj"]

/-- Directives for the C9 witness run: a matte material and a point
light, producing named materials, a shape group and an instance. -/
def c9wdirs : List Directive :=
  [Directive.material "matte" [], Directive.lightSource "point" []]

/-- The state produced by running the C9 witness directives. -/
def c9wstate : PState := (run initState c9wdirs).toOption.getD initState

/-- A sample named material. -/
def c6m1 : Material :=
  {name := "material_0", kd := ⟨1, 0, 0⟩, ks := ⟨0, 0, 1⟩, kr := ⟨0, 1, 1⟩,
   kt := ⟨1, 1, 0⟩, rs := 2, op := 3}

/-- A second sample named material. -/
def c6m2 : Material :=
  {name := "material_1", kd := ⟨0, 1, 0⟩, ks := ⟨1, 0, 0⟩, kr := ⟨1, 0, 1⟩,
   kt := ⟨0, 1, 1⟩, rs := 4, op := 5}

/-- A material heap holding the two sample materials. -/
def c6heap : List Material := [{}, c6m1, c6m2]

/-- A graphics state whose material table names the two samples. -/
def c6gs : GState := {nameToMaterial := [("red", 1), ("blue", 2)]}

/-- Parsed mix-material information referencing the two samples with
blend factor one quarter. -/
def c6pmi : PMI :=
  {b_namedMaterial1 := true, namedMaterial1 := "red",
   b_namedMaterial2 := true, namedMaterial2 := "blue",
   b_amount := true, amount := 1/4}

/-! # Theorems -/

/-! ## Decimal rendering and identifier injectivity -/

theorem unDigits_natDigitsRev : ∀ fuel n, n ≤ fuel → unDigits (natDigitsRev fuel n) = n := by
  intro fuel
  induction fuel with
  | zero => intro n hn; interval_cases n; simp [natDigitsRev, unDigits]
  | succ f ih =>
    intro n hn
    by_cases h0 : n = 0
    · simp [natDigitsRev, h0, unDigits]
    · have hdiv : n / 10 ≤ f := by
        have hlt : n / 10 < n := Nat.div_lt_self (Nat.pos_of_ne_zero h0) (by norm_num)
        omega
      simp only [natDigitsRev, h0, if_false, unDigits]
      rw [ih _ hdiv]
      exact Nat.mod_add_div n 10

theorem natDigitsRev_lt10 : ∀ fuel n d, d ∈ natDigitsRev fuel n → d < 10 := by
  intro fuel
  induction fuel with
  | zero => intro n d hd; simp [natDigitsRev] at hd
  | succ f ih =>
    intro n d hd
    by_cases h0 : n = 0
    · simp [natDigitsRev, h0] at hd
    · simp only [natDigitsRev, h0, if_false, List.mem_cons] at hd
      rcases hd with h | h
      · subst h; exact Nat.mod_lt n (by omega)
      · exact ih _ _ h

theorem digitChar_inj_lt : ∀ a ∈ List.range 10, ∀ b ∈ List.range 10,
    digitChar a = digitChar b → a = b := by decide

theorem map_digitChar_inj : ∀ l1 l2 : List Nat, (∀ d ∈ l1, d < 10) → (∀ d ∈ l2, d < 10) →
    l1.map digitChar = l2.map digitChar → l1 = l2 := by
  intro l1
  induction l1 with
  | nil => intro l2 _ _ h; cases l2 with
    | nil => rfl
    | cons b t => simp at h
  | cons a t ih =>
    intro l2 h1 h2 h
    cases l2 with
    | nil => simp at h
    | cons b t2 =>
      simp only [List.map_cons, List.cons.injEq] at h
      have ha : a ∈ List.range 10 := List.mem_range.mpr (h1 a (by simp))
      have hb : b ∈ List.range 10 := List.mem_range.mpr (h2 b (by simp))
      have : a = b := digitChar_inj_lt a ha b hb h.1
      subst this
      rw [ih t2 (fun d hd => h1 d (by simp [hd])) (fun d hd => h2 d (by simp [hd])) h.2]

theorem natRepr_inj {m n : Nat} (h : natRepr m = natRepr n) : m = n := by
  unfold natRepr at h
  by_cases hm : m = 0 <;> by_cases hn : n = 0
  · omega
  · exfalso
    simp only [hm, if_true, hn, if_false] at h
    have hd := congrArg String.data h
    have hz : String.data "0" = ['0'] := rfl
    rw [hz] at hd
    have h2 : (natDigitsRev n n).map digitChar = ['0'] := by
      have := congrArg List.reverse hd
      simpa using this.symm
    rcases he : natDigitsRev n n with _ | ⟨d, t⟩
    · rw [he] at h2; simp at h2
    · rw [he] at h2
      simp only [List.map_cons, List.cons.injEq] at h2
      have hdl : d < 10 := natDigitsRev_lt10 n n d (by rw [he]; simp)
      have hd0 : d = 0 := by
        have : digitChar d = digitChar 0 := by simpa [digitChar] using h2.1
        exact digitChar_inj_lt d (List.mem_range.mpr hdl) 0 (by decide) this
      have ht : t = [] := List.map_eq_nil_iff.mp h2.2
      have := unDigits_natDigitsRev n n le_rfl
      rw [he, hd0, ht] at this
      simp [unDigits] at this
      omega
  · exfalso
    simp only [hm, if_false, hn, if_true] at h
    have hd := congrArg String.data h
    have hz : String.data "0" = ['0'] := rfl
    rw [hz] at hd
    have h2 : (natDigitsRev m m).map digitChar = ['0'] := by
      have := congrArg List.reverse hd
      simpa using this
    rcases he : natDigitsRev m m with _ | ⟨d, t⟩
    · rw [he] at h2; simp at h2
    · rw [he] at h2
      simp only [List.map_cons, List.cons.injEq] at h2
      have hdl : d < 10 := natDigitsRev_lt10 m m d (by rw [he]; simp)
      have hd0 : d = 0 := by
        have : digitChar d = digitChar 0 := by simpa [digitChar] using h2.1
        exact digitChar_inj_lt d (List.mem_range.mpr hdl) 0 (by decide) this
      have ht : t = [] := List.map_eq_nil_iff.mp h2.2
      have := unDigits_natDigitsRev m m le_rfl
      rw [he, hd0, ht] at this
      simp [unDigits] at this
      omega
  · simp only [hm, hn, if_false] at h
    have hd := congrArg String.data h
    simp only [String.data] at hd
    have h2 : (natDigitsRev m m).map digitChar = (natDigitsRev n n).map digitChar := by
      have := congrArg List.reverse hd
      simpa using this
    have h3 := map_digitChar_inj _ _ (fun d hd => natDigitsRev_lt10 m m d hd)
      (fun d hd => natDigitsRev_lt10 n n d hd) h2
    have hm2 := unDigits_natDigitsRev m m le_rfl
    have hn2 := unDigits_natDigitsRev n n le_rfl
    rw [h3] at hm2
    omega

theorem string_append_data (a b : String) : (a ++ b).data = a.data ++ b.data := rfl

theorem join_string_int_inj (p : String) {m n : Nat}
    (h : join_string_int p m = join_string_int p n) : m = n := by
  unfold join_string_int at h
  have hd := congrArg String.data h
  rw [string_append_data, string_append_data, string_append_data, string_append_data] at hd
  have h2 := List.append_cancel_left hd
  have h3 : natRepr m = natRepr n := by
    apply String.ext
    exact h2
  exact natRepr_inj h3

theorem join_string_int_ne_empty (p : String) (n : Nat) : join_string_int p n ≠ "" := by
  intro h
  unfold join_string_int at h
  have hd := congrArg String.data h
  rw [string_append_data, string_append_data] at hd
  have : String.data "" = [] := rfl
  rw [this] at hd
  have := congrArg List.length hd
  simp [string_append_data] at this

/-! ## Claim C1: the numeric recognizer -/

/-- The loop if-chain of the source agrees with the spec automaton
transition function on every state, flag and character. -/
theorem codeStep_eq_specDelta (state : Nat) (ps : Bool) (c : Char) :
    codeStep state ps c = specDelta (state, ps) c := by
  rcases state with _ | _ | _ | _ | _ | _ | _ | _ | state <;>
    simp only [codeStep, specDelta] <;>
    by_cases h1 : c = '+' <;> by_cases h2 : c = '-' <;> by_cases h3 : c = '.' <;>
    by_cases h4 : c = 'e' <;> by_cases h5 : c = 'E' <;> by_cases hd : c.isDigit <;>
    simp_all

/-- The code loop agrees with the greedy spec-automaton run from any
configuration. -/
theorem rnLoop_eq_specRun (input : List Char) :
    ∀ (state : Nat) (ps : Bool) (acc : List Char),
    rnLoop input state ps acc = specRun input (state, ps) acc := by
  induction input with
  | nil =>
    intro state ps acc
    simp only [rnLoop, specRun, codeStep_eq_specDelta]
    cases specDelta (state, ps) ' ' with
    | none => simp [codeExit, specFinal]
    | some st2 => rfl
  | cons c rest ih =>
    intro state ps acc
    simp only [rnLoop, specRun, codeStep_eq_specDelta]
    cases h : specDelta (state, ps) c with
    | none => simp [codeExit, specFinal]
    | some st2 => exact ih st2.1 st2.2 (c :: acc)

/-- C1 counterexample.  The claim asserts that read_number rejects
"1..2" with a lexical error; in fact the source accepts the prefix "1."
(which ends in final state 3 at the non-consumable second dot) and
returns a number token, leaving ".2" unconsumed, raising no error. -/
theorem c1_counterexample_dotdot :
    read_number ("1..2".toList) = NumOut.tok "1." ('.' :: ['2']) ∧
    read_number ("1..2".toList) ≠ NumOut.lexError := by
  constructor
  · decide
  · decide

/-- C1 (amended): `read_number` agrees with the spec-4.1 automaton on
every input — it returns a number token exactly when a prefix of the
input is accepted by the automaton (ending in a final state 2, 3 or 6
at a non-consumable character), raises a lexical error when the run
gets stuck in a non-final state, and defers (notNum) when the first
character cannot start a number.  Of the four inputs the claim lists,
".e3", "1e" and "+-1" are rejected with a lexical error, but "1..2" is
not rejected (see the counterexample). -/
theorem c1_read_number_spec_equiv :
    (∀ input : List Char, read_number input = specReadNumber input) ∧
    read_number (".e3".toList) = NumOut.lexError ∧
    read_number ("1e".toList) = NumOut.lexError ∧
    read_number ("+-1".toList) = NumOut.lexError := by
  refine ⟨fun input => ?_, by decide, by decide, by decide⟩
  unfold read_number specReadNumber
  by_cases h : (peekC input == '+' || peekC input == '-' || peekC input == '.' ||
      (peekC input).isDigit) = true
  · simp only [h, Bool.not_true, if_false]
    exact rnLoop_eq_specRun input 0 false []
  · simp only [eq_false_of_ne_true h, Bool.not_false, if_true]

unseal Rat.add Rat.mul Rat.sub Rat.inv

/-! ## Claim C2: AttributeEnd / TransformEnd on an empty stack -/

/-- C2 (code bug).  With an empty attribute-state stack (respectively
transform stack), `execute_AttributeEnd` (respectively
`execute_TransformEnd`) performs `back()` and `pop_back()` on an empty
vector, an out-of-bounds access; no syntax error is raised, contrary to
the claim.  With a non-empty stack the popped state (matrix) is
restored as the claim states. -/
theorem c2_attribute_end_empty_stack_crash :
    step initState Directive.attributeEnd = Except.error PErr.crash ∧
    step initState Directive.transformEnd = Except.error PErr.crash ∧
    step {initState with stateStack := [gsA]} Directive.attributeEnd =
      Except.ok {initState with gState := gsA, stateStack := []} ∧
    step {initState with CTMStack := [mA]} Directive.transformEnd =
      Except.ok {initState with gState := {initState.gState with CTM := mA}, CTMStack := []} := by
  refine ⟨by decide, by decide, by decide, by decide⟩

/-! ## Claim C3: texture commitment -/

/-- C3 (code bug).  `execute_Texture` pushes the declared texture into
the scene texture list at declaration time: after a single Texture
directive and no reference from any material or light, the scene
texture list already holds the texture, contrary to the claim that an
unreferenced declared texture does not appear there. -/
theorem c3_unreferenced_texture_in_scene :
    (run initState c3dirs).map (fun st => st.scene.textures) =
      Except.ok [{name := "", path := "./img.png"}] ∧
    (run initState c3dirs).map (fun st => st.scene.textures.length) = Except.ok 1 := by
  refine ⟨by decide, by decide⟩

/-! ## Claim C4: object instantiation -/

/-- C4 (code bug).  After declaring object "obj" (one cube shape) and
before any ObjectInstance, the shape group is already in the scene
shape collection (length 1, instances 0): the source appends it from
`execute_Shape` during the declaration, not on first instantiation.
Instantiating twice leaves the shape list unchanged and pushes two
instances whose frames equal the current matrix times the capture-time
matrix (that part of the claim holds). -/
theorem c4_object_shapes_added_at_declaration :
    (run initState (c4dirs.take 4)).map
      (fun st => (st.scene.shapes.length, st.scene.instances.length)) =
      Except.ok (1, 0) ∧
    (run initState c4dirs).map
      (fun st => (st.scene.shapes.length, st.scene.instances.map Inst.frame)) =
      Except.ok (1, [mB * mA, mB * mA]) := by
  refine ⟨by decide, by decide⟩

/-! ## Claim C5: object blocks and graphics state -/

/-- C5 (code bug).  `execute_ObjectBlock` performs no attribute push or
pop: a transformation executed inside the block leaks, so after
ObjectEnd the current matrix is mA instead of the identity it had
before ObjectBegin, and the attribute-state stack was never touched.
The nested-definition half of the claim holds: an ObjectBegin inside an
object definition raises a syntax error. -/
theorem c5_object_block_leaks_transform :
    (run initState c5dirs).map (fun st => st.gState.CTM) = Except.ok mA ∧
    mA ≠ idMat4 ∧
    (run initState c5dirs).map (fun st => st.stateStack.length) = Except.ok 0 ∧
    run initState [Directive.objectBegin "obj", Directive.objectBegin "obj2"] =
      Except.error (PErr.syntaxErr "Cannot define an object inside another object.") := by
  refine ⟨by decide, by decide, by decide, by decide⟩

/-! ## Claim C7: Film aspect ratio -/

/-- C7 counterexample.  With xresolution 1 and yresolution 2 the source
sets the default aspect to 1/2 and propagates 1/2 to the previously
created camera: the value is not clamped to at least 1 as the claim
requires (the clamped value would be 1). -/
theorem c7_counterexample_no_clamp :
    (execute_Film "image" [⟨"integer", "xresolution", PVal.i [1]⟩,
        ⟨"integer", "yresolution", PVal.i [2]⟩] c7state).map
      (fun st => (st.defaultAspect, st.scene.cameras.map Camera.aspect)) =
      Except.ok (1/2, [1/2]) ∧ ¬ ((1 : ℚ) ≤ 1/2) := by
  refine ⟨by decide, by decide⟩

/-- C7 (amended).  For every Film directive whose xresolution and
yresolution parameters scan to nonzero values, the default aspect ratio
is set to xres divided by yres — with no clamping — and this aspect is
written into every camera created before the directive. -/
theorem c7_film_aspect (params : List Param) (st : PState) (xres yres : Int)
    (hf : filmFold params (0, 0) = Except.ok (xres, yres))
    (hx : xres ≠ 0) (hy : yres ≠ 0) :
    execute_Film "image" params st = Except.ok {st with
      defaultAspect := (xres : ℚ) / (yres : ℚ),
      scene := {st.scene with cameras := (st.scene.cameras.map
        (fun c => {c with aspect := (xres : ℚ) / (yres : ℚ)}))}} := by
  unfold execute_Film
  rw [hf]
  simp only [Except.bind, bind, Bind.bind]
  simp [hx, hy]

/-- Witness for C7: the amended theorem applied to a 4 by 2 film with
one previously created camera. -/
theorem c7_film_aspect_witness :
    filmFold [⟨"integer", "xresolution", PVal.i [4]⟩,
        ⟨"integer", "yresolution", PVal.i [2]⟩] (0, 0) = Except.ok (4, 2) ∧
    execute_Film "image" [⟨"integer", "xresolution", PVal.i [4]⟩,
        ⟨"integer", "yresolution", PVal.i [2]⟩] c7state = Except.ok {c7state with
      defaultAspect := ((4 : Int) : ℚ) / ((2 : Int) : ℚ),
      scene := {c7state.scene with cameras := (c7state.scene.cameras.map
        (fun c => {c with aspect := ((4 : Int) : ℚ) / ((2 : Int) : ℚ)}))}} :=
  ⟨by decide, c7_film_aspect _ c7state 4 2 (by decide) (by decide) (by decide)⟩

/-! ## Claim C8: point lights -/

/-- C8 counterexample.  A point-light parameter I (or scale) declared
with type rgb raises a syntax error: the source accepts only the
declared type "spectrum" for these parameters, while the claim says the
rgb-typed parameters are accepted. -/
theorem c8_counterexample_rgb_rejected :
    parse_PointLight [⟨"rgb", "I", PVal.v3 [⟨1, 0, 0⟩]⟩] initState =
      Except.error (PErr.syntaxErr "I parameter expects a spectrum type.") ∧
    parse_PointLight [⟨"rgb", "scale", PVal.v3 [⟨1, 0, 0⟩]⟩] initState =
      Except.error (PErr.syntaxErr "scale parameter expects a spectrum type.") := by
  refine ⟨by decide, by decide⟩

/-- C8 (amended).  For spectrum-typed I and scale and a point3 from,
the point light produces a one-point shape (position from, one point
index, unit radius) whose fresh material has emission I
componentwise-times scale; the shape group and material are appended to
the scene and wrapped in a single instance whose frame is the current
transformation matrix. -/
theorem c8_point_light (i s p : Vec3) (st : PState) :
    parse_PointLight [⟨"spectrum", "I", PVal.v3 [i]⟩, ⟨"spectrum", "scale", PVal.v3 [s]⟩,
        ⟨"point3", "from", PVal.v3 [p]⟩] st =
      Except.ok {st with
        heap := st.heap ++ [{name := join_string_int "material" st.scene.materials.length,
                             ke := ⟨i.x * s.x, i.y * s.y, i.z * s.z⟩}],
        scene := {st.scene with
          materials := st.scene.materials ++ [st.heap.length],
          shapes := st.scene.shapes ++
            [{name := join_string_int "shape" st.scene.shapes.length,
              shapes := [{name := join_string_int "shape" st.scene.shapes.length,
                          mat := st.heap.length, pos := [p], points := [0], radius := [1]}]}],
          instances := st.scene.instances ++
            [{name := join_string_int "instance" st.scene.instances.length,
              shp := {name := join_string_int "shape" st.scene.shapes.length,
                      shapes := [{name := join_string_int "shape" st.scene.shapes.length,
                                  mat := st.heap.length, pos := [p], points := [0], radius := [1]}]},
              frame := st.gState.CTM}]}} := by
  unfold parse_PointLight
  simp [plFold, listAt0, PVal.v3s, Vec3.cmul, Except.bind, bind, Bind.bind]

/-! ## Claim C10: unsupported material subtypes -/

/-- C10.  A Material directive whose subtype is not one of the seven
supported ones raises no error: it records a warning and behaves
exactly as the matte subtype, installing the built material as the
current one and appending it to the scene material list (shown
explicitly for an empty parameter list). -/
theorem c10_unknown_material_matte_fallback (subtype : String) (params : List Param)
    (st : PState)
    (h1 : subtype ∉ ["matte", "metal", "mix", "plastic", "mirror", "uber", "translucent"]) :
    execute_Material subtype params st =
      execute_Material "matte" params
        {st with warnings := st.warnings ++ [unsupportedMaterialMsg subtype]} ∧
    execute_Material subtype [] st = Except.ok {st with
      warnings := st.warnings ++ [unsupportedMaterialMsg subtype],
      heap := st.heap ++ [{name := join_string_int "material" st.scene.materials.length,
                           kd := ⟨1/2, 1/2, 1/2⟩}],
      gState := {st.gState with mat := st.heap.length},
      scene := {st.scene with materials := st.scene.materials ++ [st.heap.length]}} := by
  simp only [List.mem_cons, List.not_mem_nil, or_false, not_or] at h1
  obtain ⟨n1, n2, n3, n4, n5, n6, n7⟩ := h1
  constructor
  · unfold execute_Material
    simp [n1, n2, n3, n4, n5, n6, n7]
  · unfold execute_Material
    simp [n1, n2, n3, n4, n5, n6, n7, parse_material_properties, parse_material_matte,
      finishMaterial, Except.bind, bind, Bind.bind]

/-- Witness for C10: the disney subtype falls back to matte. -/
theorem c10_unknown_material_matte_fallback_witness :
    "disney" ∉ ["matte", "metal", "mix", "plastic", "mirror", "uber", "translucent"] ∧
    execute_Material "disney" [] initState = Except.ok {initState with
      warnings := [unsupportedMaterialMsg "disney"],
      heap := initState.heap ++ [{name := join_string_int "material" 0, kd := ⟨1/2, 1/2, 1/2⟩}],
      gState := {initState.gState with mat := 1},
      scene := {initState.scene with materials := [1]}} :=
  ⟨by decide, by
    have h := (c10_unknown_material_matte_fallback "disney" [] initState (by decide)).2
    simpa using h⟩

/-! ## Claim C6: mix materials -/

/-- C6.  For a mix material whose two named materials resolve to m1 and
m2 with blend factor amt, every blended field f of the result equals
f1 times amt plus f2 times (1 - amt) — the fields mixed by the source
are kd, ks, kr, kt and the roughness rs — and the opacity is blended by
the same formula; a missing namedmaterial1 or namedmaterial2 parameter
raises a syntax error. -/
theorem c6_mix_material_blend (pmi : PMI) (gs : GState) (heap : List Material)
    (mat0 : Material) (i1 i2 : Nat) (m1 m2 : Material) (amt : ℚ)
    (h1 : pmi.b_namedMaterial1 = true) (h2 : pmi.b_namedMaterial2 = true)
    (hl1 : lookupA gs.nameToMaterial pmi.namedMaterial1 = some i1)
    (hl2 : lookupA gs.nameToMaterial pmi.namedMaterial2 = some i2)
    (hm1 : heap.getD i1 {} = m1) (hm2 : heap.getD i2 {} = m2)
    (ha : pmi.b_amount = true) (hav : pmi.amount = amt) :
    parse_material_mix gs heap pmi mat0 = Except.ok {mat0 with
        kd := ⟨m1.kd.x * amt + m2.kd.x * (1 - amt), m1.kd.y * amt + m2.kd.y * (1 - amt),
               m1.kd.z * amt + m2.kd.z * (1 - amt)⟩,
        kr := ⟨m1.kr.x * amt + m2.kr.x * (1 - amt), m1.kr.y * amt + m2.kr.y * (1 - amt),
               m1.kr.z * amt + m2.kr.z * (1 - amt)⟩,
        ks := ⟨m1.ks.x * amt + m2.ks.x * (1 - amt), m1.ks.y * amt + m2.ks.y * (1 - amt),
               m1.ks.z * amt + m2.ks.z * (1 - amt)⟩,
        kt := ⟨m1.kt.x * amt + m2.kt.x * (1 - amt), m1.kt.y * amt + m2.kt.y * (1 - amt),
               m1.kt.z * amt + m2.kt.z * (1 - amt)⟩,
        rs := m1.rs * amt + m2.rs * (1 - amt),
        op := m1.op * amt + m2.op * (1 - amt)} ∧
    (∀ pmi2 : PMI, pmi2.b_namedMaterial1 = false →
      parse_material_mix gs heap pmi2 mat0 =
        Except.error (PErr.syntaxErr "Missing material1 to mix.")) ∧
    (∀ pmi2 : PMI, pmi2.b_namedMaterial1 = true → pmi2.b_namedMaterial2 = false →
      parse_material_mix gs heap pmi2 mat0 =
        Except.error (PErr.syntaxErr "Missing material2 to mix.")) := by
  refine ⟨?_, ?_, ?_⟩
  · unfold parse_material_mix
    rw [hl1, hl2]
    simp [h1, h2, ha, hav, hm1, hm2, Vec3.add, Vec3.smul,
      -List.getD_eq_getElem?_getD]
    exact ⟨⟨by ring, by ring, by ring⟩, ⟨by ring, by ring, by ring⟩,
           ⟨by ring, by ring, by ring⟩, ⟨by ring, by ring, by ring⟩, by ring⟩
  · intro pmi2 hn
    unfold parse_material_mix
    simp [hn]
  · intro pmi2 hy hn
    unfold parse_material_mix
    simp [hy, hn]

/-- Witness for C6: the blend theorem applied to two concrete named
materials with blend factor one quarter. -/
theorem c6_mix_material_blend_witness :
    lookupA c6gs.nameToMaterial c6pmi.namedMaterial1 = some 1 ∧
    parse_material_mix c6gs c6heap c6pmi {} = Except.ok {({} : Material) with
      kd := ⟨c6m1.kd.x * (1/4) + c6m2.kd.x * (1 - 1/4),
             c6m1.kd.y * (1/4) + c6m2.kd.y * (1 - 1/4),
             c6m1.kd.z * (1/4) + c6m2.kd.z * (1 - 1/4)⟩,
      kr := ⟨c6m1.kr.x * (1/4) + c6m2.kr.x * (1 - 1/4),
             c6m1.kr.y * (1/4) + c6m2.kr.y * (1 - 1/4),
             c6m1.kr.z * (1/4) + c6m2.kr.z * (1 - 1/4)⟩,
      ks := ⟨c6m1.ks.x * (1/4) + c6m2.ks.x * (1 - 1/4),
             c6m1.ks.y * (1/4) + c6m2.ks.y * (1 - 1/4),
             c6m1.ks.z * (1/4) + c6m2.ks.z * (1 - 1/4)⟩,
      kt := ⟨c6m1.kt.x * (1/4) + c6m2.kt.x * (1 - 1/4),
             c6m1.kt.y * (1/4) + c6m2.kt.y * (1 - 1/4),
             c6m1.kt.z * (1/4) + c6m2.kt.z * (1 - 1/4)⟩,
      rs := c6m1.rs * (1/4) + c6m2.rs * (1 - 1/4),
      op := c6m1.op * (1/4) + c6m2.op * (1 - 1/4)} :=
  ⟨by decide, (c6_mix_material_blend c6pmi c6gs c6heap {} 1 2 c6m1 c6m2 (1/4)
      (by decide) (by decide) (by decide) (by decide) (by decide) (by decide)
      (by decide) (by decide)).1⟩

theorem getD_append_len {α : Type} (l : List α) (a d : α) :
    (l ++ [a]).getD l.length d = a := by
  simp [List.getD_eq_getElem?_getD, List.getElem?_append_right]

theorem getD_set_name (heap : List Material) (i j : Nat) (m : Material)
    (hm : m.name = (heap.getD i {}).name) :
    ((heap.set i m).getD j {}).name = (heap.getD j {}).name := by
  rw [List.getD_eq_getElem?_getD, List.getD_eq_getElem?_getD, List.getElem?_set]
  by_cases hij : i = j
  · subst hij
    rw [List.getD_eq_getElem?_getD] at hm
    by_cases hlt : i < heap.length
    · simp [hlt, hm]
    · simp [hlt, List.getElem?_eq_none (show heap.length ≤ i by omega)]
  · simp [hij]

theorem NamesInv_of_eq (st st2 : PState)
    (h1 : st2.scene.shapes = st.scene.shapes) (h2 : st2.scene.materials = st.scene.materials)
    (h3 : st2.scene.environments = st.scene.environments)
    (h4 : st2.scene.instances = st.scene.instances)
    (h5 : st2.heap = st.heap) (inv : NamesInv st) : NamesInv st2 := by
  unfold NamesInv sgNameAt matNameAt envNameAt instNameAt at inv ⊢
  rw [h1, h2, h3, h4, h5]
  exact inv

theorem NamesInv_addShape (st : PState) (shp : Shape) (inv : NamesInv st) :
    NamesInv (addShape st shp (join_string_int "shape" st.scene.shapes.length)) := by
  obtain ⟨is, im, ie, ii⟩ := inv
  simp only [addShape]
  split
  · refine ⟨?_, ?_, ?_, ?_⟩
    · intro j hj
      simp only [sgNameAt, List.length_append, List.length_cons, List.length_nil] at hj ⊢
      by_cases hjl : j < st.scene.shapes.length
      · rw [List.getD_append _ _ _ _ hjl]; exact is j hjl
      · have hje : j = st.scene.shapes.length := by omega
        rw [hje, getD_append_len]
    · intro j hj
      simp only [matNameAt] at im ⊢
      exact im j hj
    · intro j hj
      exact ie j hj
    · intro j hj
      exact ii j hj
  · refine ⟨?_, ?_, ?_, ?_⟩
    · intro j hj
      simp only [sgNameAt, List.length_append, List.length_cons, List.length_nil] at hj ⊢
      by_cases hjl : j < st.scene.shapes.length
      · rw [List.getD_append _ _ _ _ hjl]; exact is j hjl
      · have hje : j = st.scene.shapes.length := by omega
        rw [hje, getD_append_len]
    · intro j hj
      exact im j hj
    · intro j hj
      exact ie j hj
    · intro j hj
      simp only [instNameAt, List.length_append, List.length_cons, List.length_nil] at hj ⊢
      by_cases hjl : j < st.scene.instances.length
      · rw [List.getD_append _ _ _ _ hjl]; exact ii j hjl
      · have hje : j = st.scene.instances.length := by omega
        rw [hje, getD_append_len]
        right
        rfl

theorem NamesInv_alSet (st : PState) (inv : NamesInv st) :
    NamesInv {st with heap := (st.heap.set st.gState.mat
      {st.heap.getD st.gState.mat {} with
        ke := st.gState.alInfo.L, double_sided := st.gState.alInfo.twosided})} := by
  obtain ⟨is, im, ie, ii⟩ := inv
  refine ⟨fun j hj => is j hj, ?_, fun j hj => ie j hj, fun j hj => ii j hj⟩
  intro j hj
  obtain ⟨hb, hn⟩ := im j hj
  refine ⟨?_, ?_⟩
  · simpa [List.length_set] using hb
  · simp only [matNameAt] at hn ⊢
    have hm : ({(st.heap.getD st.gState.mat ({} : Material)) with ke := st.gState.alInfo.L, double_sided := st.gState.alInfo.twosided} : Material).name = (st.heap.getD st.gState.mat ({} : Material)).name := rfl
    exact (getD_set_name st.heap st.gState.mat (st.scene.materials.getD j 0) _ hm).trans hn

theorem NamesInv_execute_Shape (subtype : String) (params : List Param)
    (st st2 : PState) (h : execute_Shape subtype params st = Except.ok st2)
    (inv : NamesInv st) : NamesInv st2 := by
  simp only [execute_Shape] at h
  set stH := (if st.gState.alInfo.active = true then
      {st with heap := (st.heap.set st.gState.mat
        {st.heap.getD st.gState.mat {} with
          ke := st.gState.alInfo.L, double_sided := st.gState.alInfo.twosided})}
      else st) with hstH
  have hset : NamesInv stH := by
    rw [hstH]
    split
    · exact NamesInv_alSet st inv
    · exact inv
  have hshapes : stH.scene.shapes = st.scene.shapes := by
    rw [hstH]; split <;> rfl
  split at h
  · cases hc : parse_curve params {name := join_string_int "shape" st.scene.shapes.length, mat := stH.gState.mat} with
    | error e =>
      rw [hc] at h
      simp [Except.bind, bind, Bind.bind] at h
    | ok shp =>
      rw [hc] at h
      simp only [Except.bind, bind, Bind.bind, Except.ok.injEq] at h
      subst h
      have hr := NamesInv_addShape stH shp hset
      rwa [hshapes] at hr
  · split at h
    · cases hc : parse_trianglemesh params {name := join_string_int "shape" st.scene.shapes.length, mat := stH.gState.mat} with
      | error e =>
        rw [hc] at h
        simp [Except.bind, bind, Bind.bind] at h
      | ok shp =>
        rw [hc] at h
        simp only [Except.bind, bind, Bind.bind, Except.ok.injEq] at h
        subst h
        have hr := NamesInv_addShape stH shp hset
        rwa [hshapes] at hr
    · split at h
      · simp only [Except.ok.injEq] at h
        subst h
        have hr := NamesInv_addShape stH {name := join_string_int "shape" st.scene.shapes.length, mat := stH.gState.mat} hset
        rwa [hshapes] at hr
      · split at h
        · simp at h
        · simp only [Except.ok.injEq] at h
          subst h
          exact NamesInv_of_eq stH _ rfl rfl rfl rfl rfl hset

theorem name_matte (pmi : PMI) (mat : Material) :
    (parse_material_matte pmi mat).name = mat.name := by
  simp only [parse_material_matte]
  split <;> rfl

theorem name_uber (pmi : PMI) (mat : Material) :
    (parse_material_uber pmi mat).name = mat.name := by
  simp only [parse_material_uber]
  split <;> split <;> split <;> split <;> rfl

theorem name_translucent (pmi : PMI) (mat : Material) :
    (parse_material_translucent pmi mat).name = mat.name := by
  simp only [parse_material_translucent]
  split <;> split <;> split <;> split <;> split <;> rfl

theorem name_metal (pmi : PMI) (mat : Material) :
    (parse_material_metal pmi mat).name = mat.name := by
  simp only [parse_material_metal]
  split <;> split <;> split <;> rfl

theorem name_mirror (pmi : PMI) (mat : Material) :
    (parse_material_mirror pmi mat).name = mat.name := by
  simp only [parse_material_mirror]
  split <;> rfl

theorem name_plastic (pmi : PMI) (mat : Material) :
    (parse_material_plastic pmi mat).name = mat.name := by
  simp only [parse_material_plastic]
  split <;> rfl

theorem name_mix (gs : GState) (heap : List Material) (pmi : PMI) (mat m : Material)
    (h : parse_material_mix gs heap pmi mat = Except.ok m) : m.name = mat.name := by
  unfold parse_material_mix at h
  repeat' split at h
  any_goals exact Except.noConfusion h
  all_goals exact (congrArg Material.name (Except.ok.inj h)).symm

theorem NamesInv_finishMaterial (st st2 : PState) (m : Material)
    (hname : m.name = join_string_int "material" st.scene.materials.length)
    (h : finishMaterial st m = Except.ok st2) (inv : NamesInv st) : NamesInv st2 := by
  obtain ⟨is, im, ie, ii⟩ := inv
  simp only [finishMaterial, Except.ok.injEq] at h
  subst h
  refine ⟨fun j hj => is j hj, ?_, fun j hj => ie j hj, fun j hj => ii j hj⟩
  intro j hj
  simp only [matNameAt, List.length_append, List.length_cons, List.length_nil] at hj ⊢
  by_cases hjl : j < st.scene.materials.length
  · obtain ⟨hb, hn⟩ := im j hjl
    rw [List.getD_append _ _ _ _ hjl]
    refine ⟨by omega, ?_⟩
    rw [List.getD_append _ _ _ _ hb]
    exact hn
  · have hje : j = st.scene.materials.length := by omega
    subst hje
    rw [getD_append_len]
    refine ⟨by omega, ?_⟩
    rw [getD_append_len]
    exact hname

theorem NamesInv_execute_Material (subtype : String) (params : List Param)
    (st st2 : PState) (h : execute_Material subtype params st = Except.ok st2)
    (inv : NamesInv st) : NamesInv st2 := by
  simp only [execute_Material] at h
  split at h
  · cases hp : parse_material_properties st.gState params {} with
    | error e => rw [hp] at h; exact Except.noConfusion h
    | ok pmi =>
      rw [hp] at h
      exact NamesInv_finishMaterial st st2 _ ((name_matte _ _).trans rfl) h inv
  · split at h
    · cases hp : parse_material_properties st.gState params {} with
      | error e => rw [hp] at h; exact Except.noConfusion h
      | ok pmi =>
        rw [hp] at h
        exact NamesInv_finishMaterial st st2 _ ((name_metal _ _).trans rfl) h inv
    · split at h
      · cases hp : parse_material_properties st.gState params {} with
        | error e => rw [hp] at h; exact Except.noConfusion h
        | ok pmi =>
          rw [hp] at h
          simp only [Except.bind, bind, Bind.bind] at h
          cases hm : parse_material_mix st.gState st.heap pmi
              {name := join_string_int "material" st.scene.materials.length, mtype := MatType.specular_roughness} with
          | error e => rw [hm] at h; exact Except.noConfusion h
          | ok m =>
            rw [hm] at h
            exact NamesInv_finishMaterial st st2 m ((name_mix _ _ _ _ _ hm).trans rfl) h inv
      · split at h
        · cases hp : parse_material_properties st.gState params {} with
          | error e => rw [hp] at h; exact Except.noConfusion h
          | ok pmi =>
            rw [hp] at h
            exact NamesInv_finishMaterial st st2 _ ((name_plastic _ _).trans rfl) h inv
        · split at h
          · cases hp : parse_material_properties st.gState params {} with
            | error e => rw [hp] at h; exact Except.noConfusion h
            | ok pmi =>
              rw [hp] at h
              exact NamesInv_finishMaterial st st2 _ ((name_mirror _ _).trans rfl) h inv
          · split at h
            · cases hp : parse_material_properties st.gState params {} with
              | error e => rw [hp] at h; exact Except.noConfusion h
              | ok pmi =>
                rw [hp] at h
                exact NamesInv_finishMaterial st st2 _ ((name_uber _ _).trans rfl) h inv
            · split at h
              · cases hp : parse_material_properties st.gState params {} with
                | error e => rw [hp] at h; exact Except.noConfusion h
                | ok pmi =>
                  rw [hp] at h
                  exact NamesInv_finishMaterial st st2 _ ((name_translucent _ _).trans rfl) h inv
              · cases hp : parse_material_properties st.gState params {} with
                | error e => rw [hp] at h; exact Except.noConfusion h
                | ok pmi =>
                  rw [hp] at h
                  exact NamesInv_finishMaterial
                    {st with warnings := st.warnings ++ [unsupportedMaterialMsg subtype]} st2 _
                    ((name_matte _ _).trans rfl) h
                    (NamesInv_of_eq _ _ rfl rfl rfl rfl rfl inv)

theorem except_bind_ok {ε α β : Type} (E : Except ε α) (f : α → Except ε β) (b : β)
    (h : (E >>= f) = Except.ok b) : ∃ a, E = Except.ok a ∧ f a = Except.ok b := by
  cases E with
  | error e => simp [Except.bind, bind, Bind.bind] at h
  | ok a => exact ⟨a, rfl, h⟩

theorem name_dispatch (gs : GState) (heap : List Material) (pmi : PMI) (mat m : Material)
    (h : (if pmi.type = "metal" then Except.ok (parse_material_metal pmi mat)
      else if pmi.type = "plastic" then Except.ok (parse_material_plastic pmi mat)
      else if pmi.type = "matte" then Except.ok (parse_material_matte pmi mat)
      else if pmi.type = "mirror" then Except.ok (parse_material_mirror pmi mat)
      else if pmi.type = "uber" then Except.ok (parse_material_uber pmi mat)
      else if pmi.type = "mix" then parse_material_mix gs heap pmi mat
      else if pmi.type = "translucent" then Except.ok (parse_material_translucent pmi mat)
      else Except.error (PErr.syntaxErr ("Material type " ++ pmi.type ++ " not supported or recognized."))) =
      Except.ok m) : m.name = mat.name := by
  split at h
  · rw [← Except.ok.inj h]; exact name_metal pmi mat
  · split at h
    · rw [← Except.ok.inj h]; exact name_plastic pmi mat
    · split at h
      · rw [← Except.ok.inj h]; exact name_matte pmi mat
      · split at h
        · rw [← Except.ok.inj h]; exact name_mirror pmi mat
        · split at h
          · rw [← Except.ok.inj h]; exact name_uber pmi mat
          · split at h
            · exact name_mix gs heap pmi mat m h
            · split at h
              · rw [← Except.ok.inj h]; exact name_translucent pmi mat
              · exact Except.noConfusion h

theorem NamesInv_finishState (st : PState) (m : Material)
    (hname : m.name = join_string_int "material" st.scene.materials.length)
    (inv : NamesInv st) :
    NamesInv {st with
      heap := st.heap ++ [m],
      gState := {st.gState with mat := st.heap.length},
      scene := {st.scene with materials := st.scene.materials ++ [st.heap.length]}} := by
  exact NamesInv_finishMaterial st _ m hname rfl inv

theorem NamesInv_execute_MakeNamedMaterial (mname : String) (params : List Param)
    (st st2 : PState) (h : execute_MakeNamedMaterial mname params st = Except.ok st2)
    (inv : NamesInv st) : NamesInv st2 := by
  simp only [execute_MakeNamedMaterial] at h
  split at h
  · exact Except.noConfusion h
  · cases hp : parse_material_properties st.gState params {} with
    | error e => rw [hp] at h; exact Except.noConfusion h
    | ok pmi =>
      rw [hp] at h
      simp only [Except.bind, bind, Bind.bind] at h
      split at h
      · exact Except.noConfusion h
      · split at h
        · rw [← Except.ok.inj h]
          exact NamesInv_of_eq _ _ rfl rfl rfl rfl rfl
            (NamesInv_finishState st (parse_material_metal pmi {name := join_string_int "material" st.scene.materials.length}) ((name_metal _ _).trans rfl) inv)
        · split at h
          · rw [← Except.ok.inj h]
            exact NamesInv_of_eq _ _ rfl rfl rfl rfl rfl
              (NamesInv_finishState st (parse_material_plastic pmi {name := join_string_int "material" st.scene.materials.length}) ((name_plastic _ _).trans rfl) inv)
          · split at h
            · rw [← Except.ok.inj h]
              exact NamesInv_of_eq _ _ rfl rfl rfl rfl rfl
                (NamesInv_finishState st (parse_material_matte pmi {name := join_string_int "material" st.scene.materials.length}) ((name_matte _ _).trans rfl) inv)
            · split at h
              · rw [← Except.ok.inj h]
                exact NamesInv_of_eq _ _ rfl rfl rfl rfl rfl
                  (NamesInv_finishState st (parse_material_mirror pmi {name := join_string_int "material" st.scene.materials.length}) ((name_mirror _ _).trans rfl) inv)
              · split at h
                · rw [← Except.ok.inj h]
                  exact NamesInv_of_eq _ _ rfl rfl rfl rfl rfl
                    (NamesInv_finishState st (parse_material_uber pmi {name := join_string_int "material" st.scene.materials.length}) ((name_uber _ _).trans rfl) inv)
                · split at h
                  · cases hm : parse_material_mix st.gState st.heap pmi
                        {name := join_string_int "material" st.scene.materials.length} with
                    | error e => rw [hm] at h; exact Except.noConfusion h
                    | ok m =>
                      rw [hm] at h
                      rw [← Except.ok.inj h]
                      exact NamesInv_of_eq _ _ rfl rfl rfl rfl rfl
                        (NamesInv_finishState st m ((name_mix _ _ _ _ _ hm).trans rfl) inv)
                  · split at h
                    · rw [← Except.ok.inj h]
                      exact NamesInv_of_eq _ _ rfl rfl rfl rfl rfl
                        (NamesInv_finishState st (parse_material_translucent pmi {name := join_string_int "material" st.scene.materials.length}) ((name_translucent _ _).trans rfl) inv)
                    · exact Except.noConfusion h

theorem NamesInv_parse_PointLight (params : List Param) (st st2 : PState)
    (h : parse_PointLight params st = Except.ok st2) (inv : NamesInv st) : NamesInv st2 := by
  simp only [parse_PointLight] at h
  obtain ⟨r, hr, hf⟩ := except_bind_ok _ _ _ h
  rw [← Except.ok.inj hf]
  obtain ⟨is, im, ie, ii⟩ := inv
  refine ⟨?_, ?_, ?_, ?_⟩
  · intro j hj
    simp only [sgNameAt, List.length_append, List.length_cons, List.length_nil] at hj ⊢
    by_cases hjl : j < st.scene.shapes.length
    · rw [List.getD_append _ _ _ _ hjl]; exact is j hjl
    · have hje : j = st.scene.shapes.length := by omega
      rw [hje, getD_append_len]
  · intro j hj
    simp only [matNameAt, List.length_append, List.length_cons, List.length_nil] at hj ⊢
    by_cases hjl : j < st.scene.materials.length
    · obtain ⟨hb, hn⟩ := im j hjl
      rw [List.getD_append _ _ _ _ hjl]
      constructor
      · omega
      · rw [List.getD_append _ _ _ _ hb]
        exact hn
    · have hje : j = st.scene.materials.length := by omega
      subst hje
      rw [getD_append_len]
      constructor
      · omega
      · rw [getD_append_len]
  · intro j hj
    exact ie j hj
  · intro j hj
    simp only [instNameAt, List.length_append, List.length_cons, List.length_nil] at hj ⊢
    by_cases hjl : j < st.scene.instances.length
    · rw [List.getD_append _ _ _ _ hjl]; exact ii j hjl
    · have hje : j = st.scene.instances.length := by omega
      rw [hje, getD_append_len]
      right
      rfl

theorem NamesInv_env_append (st : PState) (e : Env)
    (hname : e.name = join_string_int "env" st.scene.environments.length)
    (inv : NamesInv st) :
    NamesInv {st with scene := {st.scene with environments := st.scene.environments ++ [e]}} := by
  obtain ⟨is, im, ie, ii⟩ := inv
  refine ⟨fun j hj => is j hj, fun j hj => im j hj, ?_, fun j hj => ii j hj⟩
  intro j hj
  simp only [envNameAt, List.length_append, List.length_cons, List.length_nil] at hj ⊢
  by_cases hjl : j < st.scene.environments.length
  · rw [List.getD_append _ _ _ _ hjl]; exact ie j hjl
  · have hje : j = st.scene.environments.length := by omega
    rw [hje, getD_append_len]
    exact hname

theorem NamesInv_parse_InfiniteLight (params : List Param) (st st2 : PState)
    (h : parse_InfiniteLight params st = Except.ok st2) (inv : NamesInv st) : NamesInv st2 := by
  simp only [parse_InfiniteLight] at h
  obtain ⟨r, hr, hf⟩ := except_bind_ok _ _ _ h
  split at hf
  · split at hf
    · rw [← Except.ok.inj hf]
      exact NamesInv_env_append _ _ rfl (NamesInv_of_eq _ _ rfl rfl rfl rfl rfl inv)
    · obtain ⟨y, hy, hf2⟩ := except_bind_ok _ _ _ hf
      exact Except.noConfusion hy
  · rw [← Except.ok.inj hf]
    exact NamesInv_env_append _ _ rfl inv

theorem NamesInv_execute_ObjectInstance (oname : String) (st st2 : PState)
    (h : execute_ObjectInstance oname st = Except.ok st2) (inv : NamesInv st) : NamesInv st2 := by
  simp only [execute_ObjectInstance] at h
  split at h
  · exact Except.noConfusion h
  · rw [← Except.ok.inj h]
    obtain ⟨is, im, ie, ii⟩ := inv
    refine ⟨fun j hj => is j hj, fun j hj => im j hj, fun j hj => ie j hj, ?_⟩
    intro j hj
    simp only [instNameAt, List.length_append, List.length_cons, List.length_nil] at hj ⊢
    by_cases hjl : j < st.scene.instances.length
    · rw [List.getD_append _ _ _ _ hjl]; exact ii j hjl
    · have hje : j = st.scene.instances.length := by omega
      rw [hje, getD_append_len]
      left
      rfl

theorem NamesInv_execute_Texture (tname ptypeRaw tclass : String) (params : List Param)
    (st st2 : PState) (h : execute_Texture tname ptypeRaw tclass params st = Except.ok st2)
    (inv : NamesInv st) : NamesInv st2 := by
  simp only [execute_Texture] at h
  split at h
  · exact Except.noConfusion h
  · split at h
    · exact Except.noConfusion h
    · split at h
      · exact Except.noConfusion h
      · obtain ⟨fn, hfn, hf⟩ := except_bind_ok _ _ _ h
        split at hf
        · rw [← Except.ok.inj hf]
          exact NamesInv_of_eq _ _ rfl rfl rfl rfl rfl inv
        · exact Except.noConfusion hf

theorem NamesInv_execute_AreaLightSource (params : List Param) (st st2 : PState)
    (h : execute_AreaLightSource params st = Except.ok st2) (inv : NamesInv st) : NamesInv st2 := by
  simp only [execute_AreaLightSource] at h
  obtain ⟨r, hr, hf⟩ := except_bind_ok _ _ _ h
  rw [← Except.ok.inj hf]
  exact NamesInv_of_eq _ _ rfl rfl rfl rfl rfl inv

theorem step_NamesInv (st : PState) (d : Directive) (st2 : PState)
    (h : step st d = Except.ok st2) (inv : NamesInv st) : NamesInv st2 := by
  cases d with
  | attributeBegin =>
    simp only [step, Except.ok.injEq] at h
    rw [← h]
    exact NamesInv_of_eq _ _ rfl rfl rfl rfl rfl inv
  | attributeEnd =>
    simp only [step] at h
    split at h
    · exact Except.noConfusion h
    · rw [← Except.ok.inj h]
      exact NamesInv_of_eq _ _ rfl rfl rfl rfl rfl inv
  | transformBegin =>
    simp only [step, Except.ok.injEq] at h
    rw [← h]
    exact NamesInv_of_eq _ _ rfl rfl rfl rfl rfl inv
  | transformEnd =>
    simp only [step] at h
    split at h
    · exact Except.noConfusion h
    · rw [← Except.ok.inj h]
      exact NamesInv_of_eq _ _ rfl rfl rfl rfl rfl inv
  | applyMatrix m =>
    simp only [step, Except.ok.injEq] at h
    rw [← h]
    exact NamesInv_of_eq _ _ rfl rfl rfl rfl rfl inv
  | setMatrix m =>
    simp only [step, Except.ok.injEq] at h
    rw [← h]
    exact NamesInv_of_eq _ _ rfl rfl rfl rfl rfl inv
  | shape subtype params => exact NamesInv_execute_Shape subtype params st st2 h inv
  | objectBegin oname =>
    simp only [step, execute_ObjectBegin] at h
    split at h
    · exact Except.noConfusion h
    · rw [← Except.ok.inj h]
      exact NamesInv_of_eq _ _ rfl rfl rfl rfl rfl inv
  | objectEnd =>
    simp only [step, execute_ObjectEnd] at h
    split at h
    · rw [← Except.ok.inj h]
      exact NamesInv_of_eq _ _ rfl rfl rfl rfl rfl inv
    · rw [← Except.ok.inj h]
      exact NamesInv_of_eq _ _ rfl rfl rfl rfl rfl inv
  | objectInstance oname => exact NamesInv_execute_ObjectInstance oname st st2 h inv
  | lightSource subtype params =>
    simp only [step, execute_LightSource] at h
    split at h
    · exact NamesInv_parse_PointLight params st st2 h inv
    · split at h
      · exact NamesInv_parse_InfiniteLight params st st2 h inv
      · split at h
        · exact NamesInv_parse_InfiniteLight params st st2 h inv
        · exact Except.noConfusion h
  | areaLightSource subtype params => exact NamesInv_execute_AreaLightSource params st st2 h inv
  | material subtype params => exact NamesInv_execute_Material subtype params st st2 h inv
  | makeNamedMaterial mname params =>
    exact NamesInv_execute_MakeNamedMaterial mname params st st2 h inv
  | namedMaterial mname =>
    simp only [step, execute_NamedMaterial] at h
    split at h
    · exact Except.noConfusion h
    · rw [← Except.ok.inj h]
      exact NamesInv_of_eq _ _ rfl rfl rfl rfl rfl inv
  | texture tname ptype tclass params =>
    exact NamesInv_execute_Texture tname ptype tclass params st st2 h inv
  | unknownD dname =>
    simp only [step, Except.ok.injEq] at h
    rw [← h]
    exact NamesInv_of_eq _ _ rfl rfl rfl rfl rfl inv

theorem run_NamesInv (ds : List Directive) : ∀ (st st2 : PState),
    run st ds = Except.ok st2 → NamesInv st → NamesInv st2 := by
  induction ds with
  | nil =>
    intro st st2 h inv
    simp only [run, Except.ok.injEq] at h
    rw [← h]
    exact inv
  | cons d rest ih =>
    intro st st2 h inv
    simp only [run] at h
    split at h
    · rename_i stM hM
      exact ih stM st2 h (step_NamesInv st d stM hM inv)
    · exact Except.noConfusion h

theorem NamesInv_initState : NamesInv initState := by
  refine ⟨?_, ?_, ?_, ?_⟩ <;> intro j hj <;> simp [initState] at hj

/-- C9: in any successful parse from the initial state, the identifiers
assigned to shape groups, to materials, and to environments are pairwise
distinct within their kind, and the non-empty instance identifiers are
pairwise distinct; but an instance created by `execute_ObjectInstance`
carries the empty name rather than a fresh `instance_k` identifier. -/
theorem c9_produced_identifiers_distinct (ds : List Directive) (st : PState)
    (h : run initState ds = Except.ok st) :
    (∀ i j, i < st.scene.shapes.length → j < st.scene.shapes.length → i ≠ j →
      sgNameAt st i ≠ sgNameAt st j) ∧
    (∀ i j, i < st.scene.materials.length → j < st.scene.materials.length → i ≠ j →
      matNameAt st i ≠ matNameAt st j) ∧
    (∀ i j, i < st.scene.environments.length → j < st.scene.environments.length → i ≠ j →
      envNameAt st i ≠ envNameAt st j) ∧
    (∀ i j, i < st.scene.instances.length → j < st.scene.instances.length → i ≠ j →
      instNameAt st i ≠ "" → instNameAt st j ≠ "" → instNameAt st i ≠ instNameAt st j) := by
  obtain ⟨is, im, ie, ii⟩ := run_NamesInv ds initState st h NamesInv_initState
  refine ⟨?_, ?_, ?_, ?_⟩
  · intro i j hi hj hne heq
    rw [is i hi, is j hj] at heq
    exact hne (join_string_int_inj _ heq)
  · intro i j hi hj hne heq
    rw [(im i hi).2, (im j hj).2] at heq
    exact hne (join_string_int_inj _ heq)
  · intro i j hi hj hne heq
    rw [ie i hi, ie j hj] at heq
    exact hne (join_string_int_inj _ heq)
  · intro i j hi hj hne hnei hnej heq
    rcases ii i hi with hci | hci
    · exact hnei hci
    rcases ii j hj with hcj | hcj
    · exact hnej hcj
    rw [hci, hcj] at heq
    exact hne (join_string_int_inj _ heq)

/-- C9 counterexample: two `ObjectInstance` directives on the same
declared object yield two scene instances both named `""`, so instance
identifiers are not pairwise distinct. -/
theorem c9_counterexample_duplicate_instance_names :
    (run initState c9dirs).map (fun st => st.scene.instances.map Inst.name) =
      Except.ok ["", ""] ∧ ¬ (["", ""] : List String).Nodup := by
  exact ⟨by rfl, by decide⟩

theorem c9_produced_identifiers_distinct_witness :
    run initState c9wdirs = Except.ok c9wstate ∧
    ((∀ i j, i < c9wstate.scene.shapes.length → j < c9wstate.scene.shapes.length → i ≠ j →
      sgNameAt c9wstate i ≠ sgNameAt c9wstate j) ∧
    (∀ i j, i < c9wstate.scene.materials.length → j < c9wstate.scene.materials.length → i ≠ j →
      matNameAt c9wstate i ≠ matNameAt c9wstate j) ∧
    (∀ i j, i < c9wstate.scene.environments.length → j < c9wstate.scene.environments.length →
      i ≠ j → envNameAt c9wstate i ≠ envNameAt c9wstate j) ∧
    (∀ i j, i < c9wstate.scene.instances.length → j < c9wstate.scene.instances.length → i ≠ j →
      instNameAt c9wstate i ≠ "" → instNameAt c9wstate j ≠ "" →
      instNameAt c9wstate i ≠ instNameAt c9wstate j)) :=
  ⟨by rfl, c9_produced_identifiers_distinct c9wdirs c9wstate (by rfl)⟩
